import Mathlib

/-!
Verification development for the pw-splitter audio-split manager.

The Rust sources are embedded shallowly:

* pure data (graph objects, ports, links, split records) becomes plain Lean
  structures mirroring `src/pipewire/types.rs` and `src/splitter/state.rs`;
* effectful code (`commands.rs`, `state.rs`, `setup.rs`, `cleanup.rs`,
  `tui/app.rs`) becomes explicit state passing over a `World` record that
  tracks the files written, the external commands issued (spawned loopbacks,
  pw-link invocations, kill signals) and counters into an `Env` oracle that
  supplies the outcome of every external interaction (pw-dump snapshots,
  pw-link exit status and stderr text, spawn results, filesystem failures);
* fallible code returns `Except PwSplitterError`.
-/

/-! ## String helpers (substring containment, mirroring Rust str::contains) -/

/-- Does the list start with the given pattern? -/
def listStarts (l pat : List Char) : Bool :=
  match pat, l with
  | [], _ => true
  | _ :: _, [] => false
  | p :: ps, c :: cs => p == c && listStarts cs ps

/-- Substring test on char lists. -/
def listHasSub (l pat : List Char) : Bool :=
  listStarts l pat ||
    match l with
    | [] => false
    | _ :: t => listHasSub t pat

/-- Substring test on strings (model of Rust `str::contains`). -/
def strHasSub (s pat : String) : Bool :=
  listHasSub s.data pat.data

/-! ## Error type, from `src/error.rs` -/

/-- Translation of `PwSplitterError` from `src/error.rs`. -/
inductive PwSplitterError where
  | CommandFailed (msg : String)
  | ParseError (msg : String)
  | NodeNotFound (msg : String)
  | NoActiveConnection
  | LoopbackSpawnFailed (msg : String)
  | LinkCreationFailed (msg : String)
  | LinkDestroyFailed (msg : String)
  | StateFileError (msg : String)
  | IoError (msg : String)
  | JsonError (msg : String)
deriving DecidableEq

/-- Display text of each error, following the thiserror format strings in
`src/error.rs`. -/
def PwSplitterError.display : PwSplitterError → String
  | .CommandFailed m => "Failed to execute PipeWire command: " ++ m
  | .ParseError m => "Failed to parse PipeWire output: " ++ m
  | .NodeNotFound m => "Node not found: " ++ m
  | .NoActiveConnection => "No active connection found for source"
  | .LoopbackSpawnFailed m => "Failed to spawn loopback: " ++ m
  | .LinkCreationFailed m => "Failed to create link: " ++ m
  | .LinkDestroyFailed m => "Failed to destroy link: " ++ m
  | .StateFileError m => "State file error: " ++ m
  | .IoError m => "IO error: " ++ m
  | .JsonError m => "JSON error: " ++ m

/-! ## A small JSON value model (for the serde_json layer of `state.rs`) -/

/-- JSON values, as far as the persisted `SplitState` records need them. -/
inductive Json where
  | str (s : String)
  | num (n : Nat)
  | arr (elems : List Json)
  | obj (fields : List (String × Json))

/-- First-match field lookup in a JSON object. -/
def jLookup : List (String × Json) → String → Option Json
  | [], _ => none
  | (k, v) :: rest, key => if k == key then some v else jLookup rest key

/-- Extract a JSON string. -/
def jAsStr : Option Json → Option String
  | some (.str s) => some s
  | _ => none

/-- Extract a JSON number. -/
def jAsNum : Option Json → Option Nat
  | some (.num n) => some n
  | _ => none

/-- Extract a JSON array. -/
def jAsArr : Option Json → Option (List Json)
  | some (.arr l) => some l
  | _ => none

/-! ## Graph object types, from `src/pipewire/types.rs` -/

/-- Translation of `NodeProps`. -/
structure NodeProps where
  node_name : Option String
  node_description : Option String
  application_name : Option String
  media_name : Option String
  media_class : Option String
  object_id : Option Nat
deriving DecidableEq

/-- Translation of `NodeInfo`. -/
structure NodeInfo where
  state : Option String
  props : Option NodeProps
deriving DecidableEq

/-- Translation of `PwNode`. -/
structure PwNode where
  id : Nat
  info : Option NodeInfo
deriving DecidableEq

/-- Translation of `PortProps`. -/
structure PortProps where
  node_id : Option Nat
  port_id : Option Nat
  port_name : Option String
  audio_channel : Option String
  object_id : Option Nat
deriving DecidableEq

/-- Translation of `PortInfo`. -/
structure PortInfo where
  direction : Option String
  props : Option PortProps
deriving DecidableEq

/-- Translation of `PwPort`. -/
structure PwPort where
  id : Nat
  info : Option PortInfo
deriving DecidableEq

/-- Translation of `LinkProps`. -/
structure LinkProps where
  link_output_node : Option Nat
  link_output_port : Option Nat
  link_input_node : Option Nat
  link_input_port : Option Nat
deriving DecidableEq

/-- Translation of `LinkInfo`. -/
structure LinkInfo where
  output_node_id : Nat
  output_port_id : Nat
  input_node_id : Nat
  input_port_id : Nat
  state : Option String
  props : Option LinkProps
deriving DecidableEq

/-- Translation of `PwLink`. -/
structure PwLink where
  id : Nat
  info : Option LinkInfo
deriving DecidableEq

/-- Translation of the `PwObject` tagged union. -/
inductive PwObject where
  | node (n : PwNode)
  | port (p : PwPort)
  | link (l : PwLink)
  | other
deriving DecidableEq

/-- Translation of `AudioSource`. -/
structure AudioSource where
  node_id : Nat
  node_name : String
  application_name : String
  media_name : String
deriving DecidableEq

/-- Translation of `AudioSource::safe_name`: keep alphanumeric chars and
underscores of the application name. -/
def AudioSource.safe_name (s : AudioSource) : String :=
  ⟨s.application_name.data.filter (fun c => c.isAlphanum || c == '_')⟩

/-- Translation of `RecordingDest`. -/
structure RecordingDest where
  node_id : Nat
  node_name : String
  application_name : String
  media_name : String
deriving DecidableEq

/-- Translation of `AudioSink`. -/
structure AudioSink where
  node_id : Nat
  node_name : String
  description : String
deriving DecidableEq

/-- Translation of `PortDirection`. -/
inductive PortDirection where
  | Input
  | Output
deriving DecidableEq

/-- Translation of `AudioPort`. -/
structure AudioPort where
  port_id : Nat
  node_id : Nat
  port_name : String
  channel : String
  direction : PortDirection
deriving DecidableEq

/-- Translation of `AudioLink`. -/
structure AudioLink where
  link_id : Nat
  output_node_id : Nat
  output_port_id : Nat
  input_node_id : Nat
  input_port_id : Nat
deriving DecidableEq

/-- Translation of `SourceConnection`. -/
structure SourceConnection where
  source_node_id : Nat
  target_node_id : Nat
  target_node_name : String
  links : List AudioLink
deriving DecidableEq

/-! ## Pure graph derivations, from `src/pipewire/parser.rs` -/

/-- Translation of `extract_audio_sources`. -/
def extract_audio_sources (objects : List PwObject) : List AudioSource :=
  objects.filterMap fun obj =>
    match obj with
    | .node node =>
      match node.info with
      | none => none
      | some info =>
        match info.props with
        | none => none
        | some props =>
          match props.media_class with
          | none => none
          | some media_class =>
            if media_class == "Stream/Output/Audio" then
              some { node_id := node.id
                     node_name := props.node_name.getD ""
                     application_name :=
                       props.application_name.getD (props.node_name.getD "")
                     media_name := props.media_name.getD "Audio" }
            else none
    | _ => none

/-- Translation of `extract_recording_dests`. -/
def extract_recording_dests (objects : List PwObject) : List RecordingDest :=
  objects.filterMap fun obj =>
    match obj with
    | .node node =>
      match node.info with
      | none => none
      | some info =>
        match info.props with
        | none => none
        | some props =>
          match props.media_class with
          | none => none
          | some media_class =>
            if media_class == "Stream/Input/Audio" then
              some { node_id := node.id
                     node_name := props.node_name.getD ""
                     application_name :=
                       props.application_name.getD (props.node_name.getD "")
                     media_name := props.media_name.getD "Audio" }
            else none
    | _ => none

/-- Translation of `extract_audio_sinks`. -/
def extract_audio_sinks (objects : List PwObject) : List AudioSink :=
  objects.filterMap fun obj =>
    match obj with
    | .node node =>
      match node.info with
      | none => none
      | some info =>
        match info.props with
        | none => none
        | some props =>
          match props.media_class with
          | none => none
          | some media_class =>
            if media_class == "Audio/Sink" then
              some { node_id := node.id
                     node_name := props.node_name.getD ""
                     description :=
                       props.node_description.getD (props.node_name.getD "") }
            else none
    | _ => none

/-- Translation of `extract_ports`. -/
def extract_ports (objects : List PwObject) : List AudioPort :=
  objects.filterMap fun obj =>
    match obj with
    | .port port =>
      match port.info with
      | none => none
      | some info =>
        match info.props with
        | none => none
        | some props =>
          match info.direction with
          | some d =>
            if d == "input" then
              match props.node_id with
              | none => none
              | some nid =>
                some { port_id := port.id, node_id := nid
                       port_name := props.port_name.getD ""
                       channel := props.audio_channel.getD ""
                       direction := .Input }
            else if d == "output" then
              match props.node_id with
              | none => none
              | some nid =>
                some { port_id := port.id, node_id := nid
                       port_name := props.port_name.getD ""
                       channel := props.audio_channel.getD ""
                       direction := .Output }
            else none
          | none => none
    | _ => none

/-- Translation of `extract_links`. -/
def extract_links (objects : List PwObject) : List AudioLink :=
  objects.filterMap fun obj =>
    match obj with
    | .link link =>
      match link.info with
      | none => none
      | some info =>
        some { link_id := link.id
               output_node_id := info.output_node_id
               output_port_id := info.output_port_id
               input_node_id := info.input_node_id
               input_port_id := info.input_port_id }
    | _ => none

/-- Translation of `find_node_by_name` (first node whose `node.name` matches
exactly). -/
def find_node_by_name (objects : List PwObject) (name : String) : Option Nat :=
  objects.findSome? fun obj =>
    match obj with
    | .node node =>
      match node.info with
      | some info =>
        match info.props with
        | some props =>
          if props.node_name == some name then some node.id else none
        | none => none
      | none => none
    | _ => none

/-- Translation of `get_node_name` (name of the first node carrying the id;
may be `none` when the node has no `node.name` property). -/
def get_node_name (objects : List PwObject) (node_id : Nat) : Option String :=
  objects.findSome? fun obj =>
    match obj with
    | .node node =>
      if node.id == node_id then
        match node.info with
        | some info =>
          match info.props with
          | some props => props.node_name
          | none => none
        | none => none
      else none
    | _ => none

/-! ### Node-name map and grouping used by `find_source_connections`

The Rust code accumulates the map and groups in `HashMap`s; the embedding
uses association lists keyed in first-insertion order (inserting an existing
key overwrites its value in place, like `HashMap::insert`; pushing a link to
a group appends it, like `Vec::push`).  The claims proved below are
insensitive to the iteration order of the final map.
-/

/-- Insert-or-overwrite for the node-name map (model of `HashMap::insert`). -/
def insertName (k : Nat) (v : String) : List (Nat × String) → List (Nat × String)
  | [] => [(k, v)]
  | (k', v') :: rest =>
    if k' == k then (k', v) :: rest else (k', v') :: insertName k v rest

/-- Lookup in the node-name map (model of `HashMap::get`). -/
def lookupName (k : Nat) : List (Nat × String) → Option String
  | [] => none
  | (k', v) :: rest => if k' == k then some v else lookupName k rest

/-- One step of the final pass of the `node_names` map: record the node's
`node.name` when it has one. -/
def nodeNameStep (m : List (Nat × String)) (obj : PwObject) : List (Nat × String) :=
  match obj with
  | .node node =>
    match node.info with
    | some info =>
      match info.props with
      | some props =>
        match props.node_name with
        | some name => insertName node.id name m
        | none => m
      | none => m
    | none => m
  | _ => m

/-- The `node_names` map of `find_source_connections`: names of sinks, then
recording destinations, then every node that has a `node.name` property. -/
def buildNodeNames (objects : List PwObject) : List (Nat × String) :=
  let sinks := extract_audio_sinks objects
  let dests := extract_recording_dests objects
  let m1 := sinks.foldl (fun m s => insertName s.node_id s.node_name m) []
  let m2 := dests.foldl (fun m d => insertName d.node_id d.node_name m) m1
  objects.foldl nodeNameStep m2

/-- Append a link to its key's group, or open a new group at the end
(model of `HashMap::entry(k).or_default().push(link)`). -/
def insertGrouped (k : Nat) (x : AudioLink) :
    List (Nat × List AudioLink) → List (Nat × List AudioLink)
  | [] => [(k, [x])]
  | (k', g) :: rest =>
    if k' == k then (k', g ++ [x]) :: rest else (k', g) :: insertGrouped k x rest

/-- Group links by a key function, in encounter order. -/
def groupByKey (key : AudioLink → Nat) (links : List AudioLink) :
    List (Nat × List AudioLink) :=
  links.foldl (fun acc l => insertGrouped (key l) l acc) []

/-- Translation of `find_source_connections`: filter the links leaving the
source, group them by target node, and attach a best-effort target name. -/
def find_source_connections (source_node_id : Nat) (objects : List PwObject) :
    List SourceConnection :=
  let links := extract_links objects
  let node_names := buildNodeNames objects
  let source_links := links.filter (fun link => link.output_node_id == source_node_id)
  let connections_map := groupByKey (fun l => l.input_node_id) source_links
  connections_map.map fun kv =>
    { source_node_id := source_node_id
      target_node_id := kv.1
      target_node_name :=
        (lookupName kv.1 node_names).getD ("Unknown(" ++ Nat.repr kv.1 ++ ")")
      links := kv.2 }

/-! ## Persistent split state, from `src/splitter/state.rs` -/

/-- Translation of `SavedLink`. -/
structure SavedLink where
  output_port : String
  input_port : String
deriving DecidableEq

/-- Translation of `SplitState`. -/
structure SplitState where
  name : String
  source_node_id : Nat
  source_node_name : String
  source_application_name : String
  recording_loopback_name : String
  local_loopback_name : String
  recording_dest_node_id : Nat
  recording_dest_media_name : String
  recording_dest_application_name : String
  original_output_node_name : String
  original_links : List SavedLink
  loopback_to_recording_pid : Nat
  loopback_to_local_pid : Nat
  created_at : Nat
deriving DecidableEq

/-- Serialization of a `SavedLink` (the serde derive writes one JSON object
per struct, keyed by field name). -/
def SavedLink.toJson (l : SavedLink) : Json :=
  .obj [("output_port", .str l.output_port), ("input_port", .str l.input_port)]

/-- Deserialization of a `SavedLink`. -/
def SavedLink.fromJson? : Json → Option SavedLink
  | .obj fields =>
    match jAsStr (jLookup fields "output_port"), jAsStr (jLookup fields "input_port") with
    | some o, some i => some { output_port := o, input_port := i }
    | _, _ => none
  | _ => none

/-- Deserialization of a saved-link array. -/
def savedLinksFromJson? : List Json → Option (List SavedLink)
  | [] => some []
  | j :: rest =>
    match SavedLink.fromJson? j, savedLinksFromJson? rest with
    | some l, some ls => some (l :: ls)
    | _, _ => none

/-- Serialization of a `SplitState`, field for field. -/
def SplitState.toJson (s : SplitState) : Json :=
  .obj [ ("name", .str s.name)
       , ("source_node_id", .num s.source_node_id)
       , ("source_node_name", .str s.source_node_name)
       , ("source_application_name", .str s.source_application_name)
       , ("recording_loopback_name", .str s.recording_loopback_name)
       , ("local_loopback_name", .str s.local_loopback_name)
       , ("recording_dest_node_id", .num s.recording_dest_node_id)
       , ("recording_dest_media_name", .str s.recording_dest_media_name)
       , ("recording_dest_application_name", .str s.recording_dest_application_name)
       , ("original_output_node_name", .str s.original_output_node_name)
       , ("original_links", .arr (s.original_links.map SavedLink.toJson))
       , ("loopback_to_recording_pid", .num s.loopback_to_recording_pid)
       , ("loopback_to_local_pid", .num s.loopback_to_local_pid)
       , ("created_at", .num s.created_at) ]

/-- Deserialization of a `SplitState`, field for field. -/
def SplitState.fromJson? : Json → Option SplitState
  | .obj fields =>
    match jAsStr (jLookup fields "name"),
          jAsNum (jLookup fields "source_node_id"),
          jAsStr (jLookup fields "source_node_name"),
          jAsStr (jLookup fields "source_application_name"),
          jAsStr (jLookup fields "recording_loopback_name"),
          jAsStr (jLookup fields "local_loopback_name"),
          jAsNum (jLookup fields "recording_dest_node_id"),
          jAsStr (jLookup fields "recording_dest_media_name"),
          jAsStr (jLookup fields "recording_dest_application_name"),
          jAsStr (jLookup fields "original_output_node_name"),
          (jAsArr (jLookup fields "original_links")).bind savedLinksFromJson?,
          jAsNum (jLookup fields "loopback_to_recording_pid"),
          jAsNum (jLookup fields "loopback_to_local_pid"),
          jAsNum (jLookup fields "created_at") with
    | some nm, some sid, some snm, some sapp, some rln, some lln, some rdid,
      some rdmn, some rdan, some oonn, some links, some rpid, some lpid, some ts =>
      some { name := nm
             source_node_id := sid
             source_node_name := snm
             source_application_name := sapp
             recording_loopback_name := rln
             local_loopback_name := lln
             recording_dest_node_id := rdid
             recording_dest_media_name := rdmn
             recording_dest_application_name := rdan
             original_output_node_name := oonn
             original_links := links
             loopback_to_recording_pid := rpid
             loopback_to_local_pid := lpid
             created_at := ts }
    | _, _, _, _, _, _, _, _, _, _, _, _, _, _ => none
  | _ => none

/-! ## The effect model: `World` state and `Env` oracle -/

/-- Result of one `Command::output()` that actually ran: exit status and
captured stderr text. -/
structure CmdOutput where
  success : Bool
  stderr : String
deriving DecidableEq

/-- Result of invoking an external command: either the OS failed to run it
(io error with its message) or it ran and produced an exit status and stderr. -/
inductive CmdInvoke where
  | ioErr (msg : String)
  | ran (out : CmdOutput)
deriving DecidableEq

/-- Outcome of one `pw-dump` invocation: io failure, non-zero exit, malformed
JSON, or a parsed object list. -/
inductive DumpRes where
  | ioErr (msg : String)
  | cmdFail (stderr : String)
  | parseBad (msg : String)
  | parsed (objects : List PwObject)

/-- One externally visible pw-link invocation, as recorded in the trace. -/
inductive LinkCall where
  | create (output_port input_port : String)
  | createById (output_port : String) (input_port_id : Nat)
  | destroy (output_port input_port : String)
deriving DecidableEq

/-- Read-only oracle for every external interaction: indexed outcomes of
pw-dump, pw-loopback spawns and pw-link runs, liveness of pids, filesystem
failure injection, and the current clock. -/
structure Env where
  dumps : Nat → DumpRes
  spawnRes : Nat → Except String Nat
  linkRes : Nat → CmdInvoke
  procAlive : Nat → Bool
  createDirFail : Option String
  writeFail : String → Option String
  readFail : String → Option String
  removeFail : String → Option String
  now : Nat

/-- Mutable world: the state-file directory contents, counters into the
oracle, and the trace of issued external commands. -/
structure World where
  files : List (String × Json)
  dumpIdx : Nat
  spawnIdx : Nat
  linkIdx : Nat
  linkCalls : List LinkCall
  killCalls : List Nat
  spawnCalls : List (String × Nat)

/-- Error-propagating sequencing for state-passing computations: effects
performed before a failure persist (as they do for the Rust `?` operator). -/
def bindE {α β : Type} (r : Except PwSplitterError α × World)
    (f : α → World → Except PwSplitterError β × World) :
    Except PwSplitterError β × World :=
  match r with
  | (.ok a, w) => f a w
  | (.error e, w) => (.error e, w)

/-- First-match lookup of a file by path. -/
def lookupFile : List (String × Json) → String → Option Json
  | [], _ => none
  | (k, v) :: rest, key => if k == key then some v else lookupFile rest key

/-- Write a file: overwrite the entry in place, or append a new one. -/
def insertFile (files : List (String × Json)) (key : String) (v : Json) :
    List (String × Json) :=
  match files with
  | [] => [(key, v)]
  | (k, v') :: rest =>
    if k == key then (k, v) :: rest else (k, v') :: insertFile rest key v

/-- Remove a file by path. -/
def removeFile (files : List (String × Json)) (key : String) :
    List (String × Json) :=
  match files with
  | [] => []
  | (k, v) :: rest =>
    if k == key then rest else (k, v) :: removeFile rest key

/-! ## External command wrappers, from `src/pipewire/commands.rs` -/

/-- Translation of `get_pw_objects`: run `pw-dump` and parse its output. -/
def get_pw_objects (env : Env) (w : World) :
    Except PwSplitterError (List PwObject) × World :=
  let w' := { w with dumpIdx := w.dumpIdx + 1 }
  match env.dumps w.dumpIdx with
  | .ioErr m => (.error (.CommandFailed ("pw-dump: " ++ m)), w')
  | .cmdFail stderr => (.error (.CommandFailed ("pw-dump failed: " ++ stderr)), w')
  | .parseBad m => (.error (.ParseError m), w')
  | .parsed objects => (.ok objects, w')

/-- Translation of `spawn_loopback_no_target`: spawn a detached `pw-loopback`
with autoconnect disabled on both halves; the returned `Child` is modelled by
its pid. -/
def spawn_loopback_no_target (env : Env) (loopback_name _loopback_desc : String)
    (w : World) : Except PwSplitterError Nat × World :=
  match env.spawnRes w.spawnIdx with
  | .error m =>
    (.error (.LoopbackSpawnFailed m), { w with spawnIdx := w.spawnIdx + 1 })
  | .ok pid =>
    (.ok pid,
     { w with spawnIdx := w.spawnIdx + 1
              spawnCalls := w.spawnCalls ++ [(loopback_name, pid)] })

/-- Decision logic of `create_link` on the `pw-link` outcome: success and
"File exists" failures are accepted, every other failure is surfaced. -/
def create_link_result (res : CmdInvoke) : Except PwSplitterError Unit :=
  match res with
  | .ioErr m => .error (.LinkCreationFailed m)
  | .ran out =>
    if out.success then .ok ()
    else if strHasSub out.stderr "File exists" then .ok ()
    else .error (.LinkCreationFailed out.stderr)

/-- Decision logic of `create_link_by_id`; like `create_link` but the error
message names the two ports. -/
def create_link_by_id_result (output_port : String) (input_port_id : Nat)
    (res : CmdInvoke) : Except PwSplitterError Unit :=
  match res with
  | .ioErr m => .error (.LinkCreationFailed m)
  | .ran out =>
    if out.success then .ok ()
    else if strHasSub out.stderr "File exists" then .ok ()
    else .error (.LinkCreationFailed
      ("Failed to link " ++ output_port ++ " -> " ++ Nat.repr input_port_id
        ++ ": " ++ out.stderr))

/-- Decision logic of `destroy_link`: success is accepted, and a failure is
surfaced only when its stderr neither contains "No such file" nor is empty. -/
def destroy_link_result (res : CmdInvoke) : Except PwSplitterError Unit :=
  match res with
  | .ioErr m => .error (.LinkDestroyFailed m)
  | .ran out =>
    if out.success then .ok ()
    else if !strHasSub out.stderr "No such file" && !(out.stderr == "") then
      .error (.LinkDestroyFailed out.stderr)
    else .ok ()

/-- Translation of `create_link`: invoke `pw-link` on two port addresses. -/
def create_link (env : Env) (output_port input_port : String) (w : World) :
    Except PwSplitterError Unit × World :=
  (create_link_result (env.linkRes w.linkIdx),
   { w with linkIdx := w.linkIdx + 1
            linkCalls := w.linkCalls ++ [.create output_port input_port] })

/-- Translation of `create_link_by_id`: invoke `pw-link` with a numeric input
port id. -/
def create_link_by_id (env : Env) (output_port : String) (input_port_id : Nat)
    (w : World) : Except PwSplitterError Unit × World :=
  (create_link_by_id_result output_port input_port_id (env.linkRes w.linkIdx),
   { w with linkIdx := w.linkIdx + 1
            linkCalls := w.linkCalls ++ [.createById output_port input_port_id] })

/-- Translation of `destroy_link`: invoke `pw-link -d` on two port addresses. -/
def destroy_link (env : Env) (output_port input_port : String) (w : World) :
    Except PwSplitterError Unit × World :=
  (destroy_link_result (env.linkRes w.linkIdx),
   { w with linkIdx := w.linkIdx + 1
            linkCalls := w.linkCalls ++ [.destroy output_port input_port] })

/-- Translation of `get_port_link_name`. -/
def get_port_link_name (node_name port_name : String) : String :=
  node_name ++ ":" ++ port_name

/-! ## State store, from `src/splitter/state.rs`

`STATE_DIR` is `/tmp/pw-splitter`; the state file of a split named `n` is
`/tmp/pw-splitter/n.json`.
-/

/-- Translation of `SplitState::state_file_path`. -/
def state_file_path (name : String) : String :=
  "/tmp/pw-splitter/" ++ name ++ ".json"

/-- Translation of `SplitState::save`: ensure the state directory exists and
write the serialized record at the split's path. -/
def SplitState.save (env : Env) (s : SplitState) (w : World) :
    Except PwSplitterError Unit × World :=
  match env.createDirFail with
  | some e => (.error (.StateFileError ("Failed to create state dir: " ++ e)), w)
  | none =>
    let path := state_file_path s.name
    match env.writeFail path with
    | some e => (.error (.StateFileError ("Failed to write state file: " ++ e)), w)
    | none => (.ok (), { w with files := insertFile w.files path (SplitState.toJson s) })

/-- Translation of `SplitState::load`: read the file at the split's path and
deserialize it. -/
def SplitState.load (env : Env) (name : String) (w : World) :
    Except PwSplitterError SplitState × World :=
  let path := state_file_path name
  match lookupFile w.files path with
  | none => (.error (.StateFileError "Failed to read state file: No such file or directory"), w)
  | some j =>
    match env.readFail path with
    | some e => (.error (.StateFileError ("Failed to read state file: " ++ e)), w)
    | none =>
      match SplitState.fromJson? j with
      | some s => (.ok s, w)
      | none => (.error (.JsonError "invalid SplitState"), w)

/-- Translation of `SplitState::delete`: remove the state file, but only if
it exists. -/
def SplitState.delete (env : Env) (s : SplitState) (w : World) :
    Except PwSplitterError Unit × World :=
  let path := state_file_path s.name
  if (lookupFile w.files path).isSome then
    match env.removeFail path with
    | some e => (.error (.StateFileError ("Failed to delete state file: " ++ e)), w)
    | none => (.ok (), { w with files := removeFile w.files path })
  else (.ok (), w)

/-- Translation of `SplitState::exists` (named `existsName` because `exists`
is reserved): does the split's state file exist? -/
def SplitState.existsName (files : List (String × Json)) (name : String) : Bool :=
  (lookupFile files (state_file_path name)).isSome

/-! ### Injectivity of decimal rendering

`generate_unique_name` keeps proposing `base_1`, `base_2`, ... until the name
is fresh.  Its termination rests on the candidates being pairwise distinct,
which in turn rests on `Nat.repr` being injective.  We prove that by relating
`Nat.repr` to a structurally transparent digit list and giving the digit list
a decoding.
-/

/-- Most-significant-first decimal digits of a natural number. -/
def digitsOf (n : Nat) : List Char :=
  if _h : n < 10 then [Nat.digitChar n]
  else digitsOf (n / 10) ++ [Nat.digitChar (n % 10)]
termination_by n
decreasing_by omega

/-- Numeric value of a digit character. -/
def digitVal (c : Char) : Nat := c.toNat - '0'.toNat

/-- Decoding step: shift the accumulator and add the next digit. -/
def digitStep (a : Nat) (c : Char) : Nat := a * 10 + digitVal c

theorem digitVal_digitChar_fin : ∀ d : Fin 10, digitVal (Nat.digitChar d.val) = d.val := by
  decide

theorem digitVal_digitChar (d : Nat) (h : d < 10) : digitVal (Nat.digitChar d) = d :=
  digitVal_digitChar_fin ⟨d, h⟩

theorem digitsOf_small (n : Nat) (h : n < 10) : digitsOf n = [Nat.digitChar n] := by
  rw [digitsOf]; simp [h]

theorem digitsOf_big (n : Nat) (h : ¬ n < 10) :
    digitsOf n = digitsOf (n / 10) ++ [Nat.digitChar (n % 10)] := by
  rw [digitsOf]; simp [h]

/-- Folding the decoding step over `digitsOf n` recovers `n`. -/
theorem digitsOf_val (n : Nat) (acc : Nat) :
    (digitsOf n).foldl digitStep acc = acc * 10 ^ (digitsOf n).length + n := by
  by_cases h : n < 10
  · rw [digitsOf_small n h]
    simp [digitStep, digitVal_digitChar n h]
  · rw [digitsOf_big n h, List.foldl_append, digitsOf_val (n / 10) acc]
    simp only [List.foldl_cons, List.foldl_nil, List.length_append, List.length_cons,
      List.length_nil, digitStep, digitVal_digitChar (n % 10) (by omega)]
    have key : n / 10 * 10 + n % 10 = n := by omega
    calc (acc * 10 ^ (digitsOf (n / 10)).length + n / 10) * 10 + n % 10
        = acc * 10 ^ ((digitsOf (n / 10)).length + (0 + 1)) + (n / 10 * 10 + n % 10) := by
          ring
      _ = acc * 10 ^ ((digitsOf (n / 10)).length + (0 + 1)) + n := by rw [key]
termination_by n
decreasing_by omega

/-- `digitsOf` is injective: decode both sides. -/
theorem digitsOf_inj {m n : Nat} (h : digitsOf m = digitsOf n) : m = n := by
  have hm := digitsOf_val m 0
  have hn := digitsOf_val n 0
  rw [h] at hm
  simp only [Nat.zero_mul, Nat.zero_add] at hm hn
  exact hm.symm.trans hn

/-- With enough fuel, core decimal rendering is `digitsOf` prepended to the
accumulator. -/
theorem toDigitsCore_eq_digitsOf :
    ∀ (f n : Nat) (l : List Char), 0 < f → n < 10 ^ f →
      Nat.toDigitsCore 10 f n l = digitsOf n ++ l := by
  intro f
  induction f with
  | zero => intro n l h0 _; omega
  | succ f ih =>
    intro n l _ hlt
    by_cases hdiv : n / 10 = 0
    · have hn : n < 10 := by omega
      rw [digitsOf_small n hn]
      simp [Nat.toDigitsCore, hdiv, Nat.mod_eq_of_lt hn]
    · have hge : ¬ n < 10 := by omega
      have hf : 0 < f := by
        rcases Nat.eq_zero_or_pos f with hf0 | hf0
        · subst hf0; simp at hlt; omega
        · exact hf0
      have hlt' : n / 10 < 10 ^ f := Nat.nat_repr_len_aux n 10 f (by norm_num) hlt
      rw [digitsOf_big n hge]
      simp only [Nat.toDigitsCore, hdiv, if_false]
      rw [ih (n / 10) (Nat.digitChar (n % 10) :: l) hf hlt']
      simp

/-- `Nat.repr` renders exactly the digit list. -/
theorem repr_eq_digitsOf (n : Nat) : Nat.repr n = (digitsOf n).asString := by
  show (Nat.toDigits 10 n).asString = (digitsOf n).asString
  unfold Nat.toDigits
  rw [toDigitsCore_eq_digitsOf (n + 1) n [] (Nat.succ_pos n)
    (lt_of_lt_of_le (Nat.lt_pow_self (by norm_num) n)
      (Nat.pow_le_pow_right (by norm_num) (Nat.le_succ n)))]
  simp

/-- Strings with equal character data are equal. -/
theorem stringDataEq {a b : String} (h : a.data = b.data) : a = b := by
  cases a; cases b; exact congrArg String.mk h

/-- Decimal rendering of naturals is injective. -/
theorem nat_repr_inj {m n : Nat} (h : Nat.repr m = Nat.repr n) : m = n := by
  rw [repr_eq_digitsOf, repr_eq_digitsOf] at h
  apply digitsOf_inj
  have := congrArg String.data h
  simpa [List.asString] using this

/-! ### The candidate sequence of `generate_unique_name` -/

/-- The k-th candidate name tried by `generate_unique_name`: the base itself
first, then `base_k` with an increasing counter. -/
def candAt (base : String) : Nat → String
  | 0 => base
  | k + 1 => base ++ "_" ++ Nat.repr (k + 1)

/-- Candidate names are pairwise distinct. -/
theorem candAt_inj (base : String) : ∀ {i j : Nat}, candAt base i = candAt base j → i = j := by
  intro i j h
  match i, j with
  | 0, 0 => rfl
  | 0, j + 1 =>
    exfalso
    have hlen := congrArg String.length h
    simp only [candAt, String.length_append,
      show ("_" : String).length = 1 from rfl] at hlen
    omega
  | i + 1, 0 =>
    exfalso
    have hlen := congrArg String.length h
    simp only [candAt, String.length_append,
      show ("_" : String).length = 1 from rfl] at hlen
    omega
  | i + 1, j + 1 =>
    have hd := congrArg String.data h
    simp only [candAt, String.data_append] at hd
    have h1 := List.append_cancel_left hd
    have h2 : (Nat.repr (i + 1)).data = (Nat.repr (j + 1)).data := by
      simpa using h1
    have := nat_repr_inj (stringDataEq h2)
    omega

/-- State-file paths of distinct names are distinct. -/
theorem state_file_path_inj {a b : String} (h : state_file_path a = state_file_path b) :
    a = b := by
  have hd := congrArg String.data h
  simp only [state_file_path, String.data_append] at hd
  have h1 := List.append_cancel_right hd
  have h2 := List.append_cancel_left h1
  exact stringDataEq h2

/-- A successful lookup means the key is among the stored paths. -/
theorem lookupFile_isSome_mem {files : List (String × Json)} {key : String}
    (h : (lookupFile files key).isSome = true) : key ∈ files.map Prod.fst := by
  induction files with
  | nil => simp [lookupFile] at h
  | cons kv rest ih =>
    obtain ⟨k, v⟩ := kv
    by_cases hk : k == key
    · simp only [List.map_cons, List.mem_cons]
      exact Or.inl (beq_iff_eq.mp hk).symm
    · simp only [lookupFile, hk] at h
      simp only [Bool.false_eq_true, if_false] at h
      exact List.mem_cons_of_mem _ (ih h)

/-- The stored paths, as a finite set. -/
def fileKeys (files : List (String × Json)) : Finset String :=
  (files.map Prod.fst).toFinset

/-- The candidate paths already tried before reaching a given counter. -/
def visitedSet (base : String) (c : Nat) : Finset String :=
  (Finset.range c).image (fun k => state_file_path (candAt base k))

/-- The retry loop of `generate_unique_name`, recursing while the candidate
name is taken.  It terminates because every taken candidate consumes one of
the finitely many stored paths and candidates never repeat. -/
def genFrom (files : List (String × Json)) (base : String) (counter : Nat) : String :=
  if h : SplitState.existsName files (candAt base counter) = true then
    genFrom files base (counter + 1)
  else candAt base counter
termination_by (fileKeys files \ visitedSet base counter).card
decreasing_by
  have hmem : state_file_path (candAt base counter) ∈ fileKeys files :=
    List.mem_toFinset.mpr (lookupFile_isSome_mem h)
  have hsub : visitedSet base counter ⊆ visitedSet base (counter + 1) :=
    Finset.image_subset_image (Finset.range_subset.mpr (Nat.le_succ counter))
  have hnot : state_file_path (candAt base counter) ∉ visitedSet base counter := by
    intro hmemv
    obtain ⟨k, hk, hkeq⟩ := Finset.mem_image.mp hmemv
    have hkc : k = counter := candAt_inj base (state_file_path_inj hkeq)
    rw [Finset.mem_range] at hk
    omega
  have hin : state_file_path (candAt base counter) ∈ visitedSet base (counter + 1) :=
    Finset.mem_image.mpr ⟨counter, Finset.mem_range.mpr (Nat.lt_succ_self counter), rfl⟩
  apply Finset.card_lt_card
  rw [Finset.ssubset_iff_of_subset (Finset.sdiff_subset_sdiff (le_refl _) hsub)]
  exact ⟨state_file_path (candAt base counter), Finset.mem_sdiff.mpr ⟨hmem, hnot⟩,
    fun hc => (Finset.mem_sdiff.mp hc).2 hin⟩

/-- Translation of `SplitState::generate_unique_name`: return the base name,
or the first fresh `base_k`. -/
def SplitState.generate_unique_name (files : List (String × Json)) (base_name : String) :
    String :=
  if SplitState.existsName files base_name = true then genFrom files base_name 1
  else base_name

/-- The name produced by the retry loop is always fresh. -/
theorem genFrom_fresh (files : List (String × Json)) (base : String) (counter : Nat) :
    SplitState.existsName files (genFrom files base counter) = false := by
  rw [genFrom]
  split
  · exact genFrom_fresh files base (counter + 1)
  · rename_i h
    simpa using h
termination_by (fileKeys files \ visitedSet base counter).card
decreasing_by
  rename_i h
  have hmem : state_file_path (candAt base counter) ∈ fileKeys files :=
    List.mem_toFinset.mpr (lookupFile_isSome_mem h)
  have hsub : visitedSet base counter ⊆ visitedSet base (counter + 1) :=
    Finset.image_subset_image (Finset.range_subset.mpr (Nat.le_succ counter))
  have hnot : state_file_path (candAt base counter) ∉ visitedSet base counter := by
    intro hmemv
    obtain ⟨k, hk, hkeq⟩ := Finset.mem_image.mp hmemv
    have hkc : k = counter := candAt_inj base (state_file_path_inj hkeq)
    rw [Finset.mem_range] at hk
    omega
  have hin : state_file_path (candAt base counter) ∈ visitedSet base (counter + 1) :=
    Finset.mem_image.mpr ⟨counter, Finset.mem_range.mpr (Nat.lt_succ_self counter), rfl⟩
  apply Finset.card_lt_card
  rw [Finset.ssubset_iff_of_subset (Finset.sdiff_subset_sdiff (le_refl _) hsub)]
  exact ⟨state_file_path (candAt base counter), Finset.mem_sdiff.mpr ⟨hmem, hnot⟩,
    fun hc => (Finset.mem_sdiff.mp hc).2 hin⟩

/-! ## Wiring the recording relay, from `src/pipewire/commands.rs`

`connect_loopback_to_recording_dest` links the playback half of the named
loopback to the destination node's input ports by port id, pairing equal
stereo channels.  The nested `for` loops become the two recursors below.
-/

/-- Inner loop: link one loopback port against every destination port whose
channel matches, by destination port id. -/
def linkRowById (env : Env) (output_node_name : String) (lb_port : AudioPort) :
    List AudioPort → World → Except PwSplitterError Unit × World
  | [], w => (.ok (), w)
  | dest_port :: rest, w =>
    if lb_port.channel == dest_port.channel then
      bindE (create_link_by_id env (get_port_link_name output_node_name lb_port.port_name)
          dest_port.port_id w)
        (fun _ w1 => linkRowById env output_node_name lb_port rest w1)
    else linkRowById env output_node_name lb_port rest w

/-- Outer loop over the loopback ports. -/
def linkPairsById (env : Env) (output_node_name : String) :
    List AudioPort → List AudioPort → World → Except PwSplitterError Unit × World
  | [], _, w => (.ok (), w)
  | p :: rest, dest_ports, w =>
    bindE (linkRowById env output_node_name p dest_ports w)
      (fun _ w1 => linkPairsById env output_node_name rest dest_ports w1)

/-- Translation of `connect_loopback_to_recording_dest`. -/
def connect_loopback_to_recording_dest (env : Env) (loopback_playback_name : String)
    (dest_node_id : Nat) (w : World) : Except PwSplitterError Unit × World :=
  bindE (get_pw_objects env w) fun objects w1 =>
    let ports := extract_ports objects
    let loopback_node_id := find_node_by_name objects loopback_playback_name
    let loopback_ports :=
      match loopback_node_id with
      | some node_id =>
        ports.filter fun p =>
          p.node_id == node_id && p.direction == PortDirection.Output &&
            (p.channel == "FL" || p.channel == "FR")
      | none => []
    let dest_ports := ports.filter fun p =>
      p.node_id == dest_node_id && p.direction == PortDirection.Input &&
        (p.channel == "FL" || p.channel == "FR")
    if loopback_ports.isEmpty || dest_ports.isEmpty then
      (.error (.LinkCreationFailed
        ("Could not find ports for loopback (" ++ Nat.repr loopback_ports.length
          ++ " ports) or destination node " ++ Nat.repr dest_node_id ++ " ("
          ++ Nat.repr dest_ports.length ++ " ports)")), w1)
    else linkPairsById env loopback_playback_name loopback_ports dest_ports w1

/-! ## Split setup, from `src/splitter/setup.rs` -/

/-- Translation of `SplitConfig`. -/
structure SplitConfig where
  source : AudioSource
  recording_dest : RecordingDest
  original_connections : List SourceConnection

/-- Translation of `SplitResult` (the two `Child` handles become pids). -/
structure SplitResult where
  state : SplitState
  loopback_to_recording : Nat
  loopback_to_local : Nat

/-- Translation of `find_primary_output`: fail on an empty connection list,
otherwise prefer a connection whose target is an `Audio/Sink`, falling back
to the first connection. -/
def find_primary_output (env : Env) (connections : List SourceConnection) (w : World) :
    Except PwSplitterError SourceConnection × World :=
  match connections with
  | [] => (.error .NoActiveConnection, w)
  | c0 :: _ =>
    bindE (get_pw_objects env w) fun objects w1 =>
      let sinks := extract_audio_sinks objects
      match connections.find?
          (fun conn => sinks.any (fun s => s.node_id == conn.target_node_id)) with
      | some conn => (.ok conn, w1)
      | none => (.ok c0, w1)

/-- Translation of `find_loopback_capture_node`: prefer a node whose
description contains the loopback name and "input"; fall back to a node whose
name contains the loopback name and that owns an input port. -/
def find_loopback_capture_node (objects : List PwObject) (loopback_name : String) :
    Option Nat :=
  let ports := extract_ports objects
  let byDesc := objects.findSome? fun obj =>
    match obj with
    | .node node =>
      match node.info with
      | some info =>
        match info.props with
        | some props =>
          match props.node_description with
          | some desc =>
            if strHasSub desc loopback_name && strHasSub desc "input" then some node.id
            else none
          | none => none
        | none => none
      | none => none
    | _ => none
  match byDesc with
  | some id => some id
  | none =>
    objects.findSome? fun obj =>
      match obj with
      | .node node =>
        match node.info with
        | some info =>
          match info.props with
          | some props =>
            match props.node_name with
            | some name =>
              if strHasSub name loopback_name then
                if ports.any (fun p =>
                    p.node_id == node.id && p.direction == PortDirection.Input) then
                  some node.id
                else none
              else none
            | none => none
          | none => none
        | none => none
      | _ => none

/-- Translation of `find_loopback_playback_node` (like the capture search,
with "output" and output ports). -/
def find_loopback_playback_node (objects : List PwObject) (loopback_name : String) :
    Option Nat :=
  let ports := extract_ports objects
  let byDesc := objects.findSome? fun obj =>
    match obj with
    | .node node =>
      match node.info with
      | some info =>
        match info.props with
        | some props =>
          match props.node_description with
          | some desc =>
            if strHasSub desc loopback_name && strHasSub desc "output" then some node.id
            else none
          | none => none
        | none => none
      | none => none
    | _ => none
  match byDesc with
  | some id => some id
  | none =>
    objects.findSome? fun obj =>
      match obj with
      | .node node =>
        match node.info with
        | some info =>
          match info.props with
          | some props =>
            match props.node_name with
            | some name =>
              if strHasSub name loopback_name then
                if ports.any (fun p =>
                    p.node_id == node.id && p.direction == PortDirection.Output) then
                  some node.id
                else none
              else none
            | none => none
          | none => none
        | none => none
      | _ => none

/-- Inner severing loop of `disconnect_source_from_target`: try to destroy
the link for every channel-matching target port, recording the pairs whose
destruction reported success. -/
def disconnectRow (env : Env) (src_name tgt_name : String) (src_port : AudioPort) :
    List AudioPort → World → List SavedLink × World
  | [], w => ([], w)
  | tgt_port :: rest, w =>
    if src_port.channel == tgt_port.channel then
      let output_port := get_port_link_name src_name src_port.port_name
      let input_port := get_port_link_name tgt_name tgt_port.port_name
      let r := destroy_link env output_port input_port w
      let rr := disconnectRow env src_name tgt_name src_port rest r.2
      (match r.1 with
       | .ok _ => { output_port := output_port, input_port := input_port } :: rr.1
       | .error _ => rr.1,
       rr.2)
    else disconnectRow env src_name tgt_name src_port rest w

/-- Outer severing loop over the source ports. -/
def disconnectPairs (env : Env) (src_name tgt_name : String) :
    List AudioPort → List AudioPort → World → List SavedLink × World
  | [], _, w => ([], w)
  | p :: rest, tgts, w =>
    let r1 := disconnectRow env src_name tgt_name p tgts w
    let r2 := disconnectPairs env src_name tgt_name rest tgts r1.2
    (r1.1 ++ r2.1, r2.2)

/-- Translation of `disconnect_source_from_target`: sever every
channel-matched link from the source to the connection's target, returning
the severed pairs (`none` when a node name cannot be resolved or nothing was
severed). -/
def disconnect_source_from_target (env : Env) (source : AudioSource)
    (connection : SourceConnection) (objects : List PwObject) (w : World) :
    Option (List SavedLink) × World :=
  let ports := extract_ports objects
  let source_ports := ports.filter fun p =>
    p.node_id == source.node_id && p.direction == PortDirection.Output &&
      (p.channel == "FL" || p.channel == "FR")
  let target_ports := ports.filter fun p =>
    p.node_id == connection.target_node_id && p.direction == PortDirection.Input &&
      (p.channel == "FL" || p.channel == "FR")
  match get_node_name objects source.node_id with
  | none => (none, w)
  | some source_node_name =>
    match get_node_name objects connection.target_node_id with
    | none => (none, w)
    | some target_node_name =>
      let r := disconnectPairs env source_node_name target_node_name source_ports
        target_ports w
      if r.1.isEmpty then (none, r.2) else (some r.1, r.2)

/-- The severing pass of `setup_split` step 3: disconnect every original
connection, extending the saved-link list with each successful severing. -/
def severAll (env : Env) (source : AudioSource) :
    List SourceConnection → List PwObject → World → List SavedLink × World
  | [], _, w => ([], w)
  | conn :: rest, objects, w =>
    let r := disconnect_source_from_target env source conn objects w
    let r2 := severAll env source rest objects r.2
    ((r.1.getD []) ++ r2.1, r2.2)

/-- Inner wiring loop of `connect_source_to_loopback` (and of
`connect_loopback_to_sink`): link one output port against every input port
whose channel matches, by port-name addresses. -/
def linkRow (env : Env) (out_name in_name : String) (out_port : AudioPort) :
    List AudioPort → World → Except PwSplitterError Unit × World
  | [], w => (.ok (), w)
  | in_port :: rest, w =>
    if out_port.channel == in_port.channel then
      bindE (create_link env (get_port_link_name out_name out_port.port_name)
          (get_port_link_name in_name in_port.port_name) w)
        (fun _ w1 => linkRow env out_name in_name out_port rest w1)
    else linkRow env out_name in_name out_port rest w

/-- Outer wiring loop over the output ports. -/
def linkPairs (env : Env) (out_name in_name : String) :
    List AudioPort → List AudioPort → World → Except PwSplitterError Unit × World
  | [], _, w => (.ok (), w)
  | p :: rest, in_ports, w =>
    bindE (linkRow env out_name in_name p in_ports w)
      (fun _ w1 => linkPairs env out_name in_name rest in_ports w1)

/-- Translation of `connect_source_to_loopback`: wire the source's stereo
output ports into the loopback's capture input ports. -/
def connect_source_to_loopback (env : Env) (source : AudioSource)
    (loopback_name : String) (w : World) : Except PwSplitterError Unit × World :=
  bindE (get_pw_objects env w) fun objects w1 =>
    let ports := extract_ports objects
    match find_loopback_capture_node objects loopback_name with
    | none => (.error (.NodeNotFound ("loopback capture " ++ loopback_name)), w1)
    | some loopback_node_id =>
      let source_ports := ports.filter fun p =>
        p.node_id == source.node_id && p.direction == PortDirection.Output &&
          (p.channel == "FL" || p.channel == "FR")
      let loopback_ports := ports.filter fun p =>
        p.node_id == loopback_node_id && p.direction == PortDirection.Input &&
          (p.channel == "FL" || p.channel == "FR")
      if source_ports.isEmpty || loopback_ports.isEmpty then
        (.error (.LinkCreationFailed
          ("Could not find ports: source=" ++ Nat.repr source_ports.length
            ++ ", loopback=" ++ Nat.repr loopback_ports.length)), w1)
      else
        match get_node_name objects source.node_id with
        | none =>
          (.error (.NodeNotFound ("source node " ++ Nat.repr source.node_id)), w1)
        | some source_node_name =>
          match get_node_name objects loopback_node_id with
          | none =>
            (.error (.NodeNotFound ("loopback node " ++ Nat.repr loopback_node_id)), w1)
          | some loopback_node_name =>
            linkPairs env source_node_name loopback_node_name source_ports
              loopback_ports w1

/-- Translation of `connect_loopback_to_sink`: wire the loopback's playback
output ports into the named sink's input ports. -/
def connect_loopback_to_sink (env : Env) (loopback_name sink_name : String)
    (w : World) : Except PwSplitterError Unit × World :=
  bindE (get_pw_objects env w) fun objects w1 =>
    let ports := extract_ports objects
    match find_loopback_playback_node objects loopback_name with
    | none => (.error (.NodeNotFound ("loopback playback " ++ loopback_name)), w1)
    | some loopback_node_id =>
      match find_node_by_name objects sink_name with
      | none => (.error (.NodeNotFound sink_name), w1)
      | some sink_node_id =>
        let loopback_ports := ports.filter fun p =>
          p.node_id == loopback_node_id && p.direction == PortDirection.Output &&
            (p.channel == "FL" || p.channel == "FR")
        let sink_ports := ports.filter fun p =>
          p.node_id == sink_node_id && p.direction == PortDirection.Input &&
            (p.channel == "FL" || p.channel == "FR")
        if loopback_ports.isEmpty || sink_ports.isEmpty then
          (.error (.LinkCreationFailed
            ("Could not find ports: loopback=" ++ Nat.repr loopback_ports.length
              ++ ", sink=" ++ Nat.repr sink_ports.length)), w1)
        else
          match get_node_name objects loopback_node_id with
          | none =>
            (.error (.NodeNotFound ("loopback node " ++ Nat.repr loopback_node_id)), w1)
          | some loopback_node_name =>
            linkPairs env loopback_node_name sink_name loopback_ports sink_ports w1

/-- Translation of `setup_split`: pick the primary output, spawn the two
loopbacks, sever the original connections, wire source into both capture
halves, wire the playback halves to the recording destination and the
original sink, then persist the record. -/
def setup_split (env : Env) (config : SplitConfig) (w : World) :
    Except PwSplitterError SplitResult × World :=
  let source_safe_name := config.source.safe_name
  let split_name := SplitState.generate_unique_name w.files (source_safe_name ++ "_Split")
  bindE (find_primary_output env config.original_connections w) fun primary_connection w1 =>
  let recording_loopback_name := source_safe_name ++ "_to_Recording"
  let recording_loopback_desc :=
    config.source.application_name ++ " -> " ++ config.recording_dest.application_name
  bindE (spawn_loopback_no_target env recording_loopback_name recording_loopback_desc w1)
    fun loopback_to_recording w2 =>
  let local_loopback_name := source_safe_name ++ "_to_Local"
  let local_loopback_desc := config.source.application_name ++ " -> Local"
  bindE (spawn_loopback_no_target env local_loopback_name local_loopback_desc w2)
    fun loopback_to_local w3 =>
  bindE (get_pw_objects env w3) fun objects w4 =>
  let sev := severAll env config.source config.original_connections objects w4
  bindE (connect_source_to_loopback env config.source recording_loopback_name sev.2)
    fun _ w5 =>
  bindE (connect_source_to_loopback env config.source local_loopback_name w5) fun _ w6 =>
  bindE (connect_loopback_to_recording_dest env recording_loopback_name
      config.recording_dest.node_id w6) fun _ w7 =>
  bindE (connect_loopback_to_sink env local_loopback_name
      primary_connection.target_node_name w7) fun _ w8 =>
  let state : SplitState :=
    { name := split_name
      source_node_id := config.source.node_id
      source_node_name := config.source.node_name
      source_application_name := config.source.application_name
      recording_loopback_name := recording_loopback_name
      local_loopback_name := local_loopback_name
      recording_dest_node_id := config.recording_dest.node_id
      recording_dest_media_name := config.recording_dest.media_name
      recording_dest_application_name := config.recording_dest.application_name
      original_output_node_name := primary_connection.target_node_name
      original_links := sev.1
      loopback_to_recording_pid := loopback_to_recording
      loopback_to_local_pid := loopback_to_local
      created_at := env.now }
  bindE (SplitState.save env state w8) fun _ w9 =>
  (.ok { state := state
         loopback_to_recording := loopback_to_recording
         loopback_to_local := loopback_to_local }, w9)

/-! ## Teardown and recovery, from `src/splitter/cleanup.rs` -/

/-- Translation of `kill_process`: send SIGTERM, ignoring the outcome. -/
def kill_process (pid : Nat) (w : World) : World :=
  { w with killCalls := w.killCalls ++ [pid] }

/-- The restoration loop of `teardown_split` step 2: recreate every saved
link, discarding each result. -/
def restoreLinks (env : Env) : List SavedLink → World → World
  | [], w => w
  | l :: rest, w => restoreLinks env rest (create_link env l.output_port l.input_port w).2

/-- Translation of `teardown_split`: kill both loopbacks, recreate the saved
links, delete the record. -/
def teardown_split (env : Env) (state : SplitState) (w : World) :
    Except PwSplitterError Unit × World :=
  let w1 := kill_process state.loopback_to_recording_pid w
  let w2 := kill_process state.loopback_to_local_pid w1
  let w3 := restoreLinks env state.original_links w2
  SplitState.delete env state w3

/-- Translation of `stop_split`: load the record by name, then tear it down. -/
def stop_split (env : Env) (name : String) (w : World) :
    Except PwSplitterError Unit × World :=
  bindE (SplitState.load env name w) fun state w1 => teardown_split env state w1

/-- Translation of `is_process_running` (`/proc/<pid>` probe). -/
def is_process_running (env : Env) (pid : Nat) : Bool := env.procAlive pid

/-- Translation of `check_loopbacks_running`. -/
def check_loopbacks_running (env : Env) (state : SplitState) : Bool × Bool :=
  (is_process_running env state.loopback_to_recording_pid,
   is_process_running env state.loopback_to_local_pid)

/-- Translation of `restart_loopback_to_recording`: respawn the recording
loopback, overwrite the stored pid, reconnect the loopback playback to the
destination, and re-persist the record.  The possibly part-updated record is
returned alongside the result, mirroring the `&mut SplitState` argument. -/
def restart_loopback_to_recording (env : Env) (state : SplitState) (w : World) :
    Except PwSplitterError Nat × SplitState × World :=
  let loopback_desc :=
    state.source_application_name ++ " -> " ++ state.recording_dest_application_name
  match spawn_loopback_no_target env state.recording_loopback_name loopback_desc w with
  | (.error e, w1) => (.error e, state, w1)
  | (.ok new_pid, w1) =>
    let state1 := { state with loopback_to_recording_pid := new_pid }
    match connect_loopback_to_recording_dest env state1.recording_loopback_name
        state1.recording_dest_node_id w1 with
    | (.error e, w2) => (.error e, state1, w2)
    | (.ok _, w2) =>
      match SplitState.save env state1 w2 with
      | (.error e, w3) => (.error e, state1, w3)
      | (.ok _, w3) => (.ok new_pid, state1, w3)

/-- Translation of `restart_loopback_to_local`: respawn the local loopback,
overwrite the stored pid, and re-persist the record (no rewiring). -/
def restart_loopback_to_local (env : Env) (state : SplitState) (w : World) :
    Except PwSplitterError Nat × SplitState × World :=
  let loopback_desc := state.source_application_name ++ " -> Local"
  match spawn_loopback_no_target env state.local_loopback_name loopback_desc w with
  | (.error e, w1) => (.error e, state, w1)
  | (.ok new_pid, w1) =>
    let state1 := { state with loopback_to_local_pid := new_pid }
    match SplitState.save env state1 w1 with
    | (.error e, w2) => (.error e, state1, w2)
    | (.ok _, w2) => (.ok new_pid, state1, w2)

/-! ## The periodic health check, from `src/tui/app.rs` -/

/-- The slice of the TUI `App` that `check_and_restart_loopbacks` touches. -/
structure App where
  active_split : Option SplitState
  status_message : String

/-- Translation of `App::check_and_restart_loopbacks`: probe both loopback
pids and restart each one that is not running, updating the stored record
and the status message. -/
def check_and_restart_loopbacks (env : Env) (app : App) (w : World) : App × World :=
  match app.active_split with
  | none => (app, w)
  | some state =>
    let flags := check_loopbacks_running env state
    let r1 :=
      if flags.1 then (state, app.status_message, w)
      else
        match restart_loopback_to_recording env state w with
        | (.error e, st1, w1) =>
          (st1, "Failed to restart recording loopback: " ++ e.display, w1)
        | (.ok _, st1, w1) => (st1, "Recording loopback restarted", w1)
    let r2 :=
      if flags.2 then r1
      else
        match restart_loopback_to_local env r1.1 r1.2.2 with
        | (.error e, st2, w2) =>
          (st2, "Failed to restart local loopback: " ++ e.display, w2)
        | (.ok _, st2, w2) => (st2, "Local loopback restarted", w2)
    ({ active_split := some r2.1, status_message := r2.2.1 }, r2.2.2)

/-- Modelled from the spec: "re-establishes its capture←source ... wiring"
(§4.5).  A pw-link call trace re-establishes the capture←source wiring of a
relay exactly when some link-creation call's output side addresses a port of
the source node, i.e. starts with "<sourceNodeName>:". -/
def capture_wiring_attempted (calls : List LinkCall) (source_node_name : String) : Bool :=
  calls.any fun c =>
    match c with
    | .create op _ => listStarts op.data (source_node_name ++ ":").data
    | .createById op _ => listStarts op.data (source_node_name ++ ":").data
    | .destroy _ _ => false

/-! ## Store lemmas -/

/-- Looking up the key just written finds the written value. -/
theorem lookupFile_insertFile_self (files : List (String × Json)) (key : String) (v : Json) :
    lookupFile (insertFile files key v) key = some v := by
  induction files with
  | nil => simp [insertFile, lookupFile]
  | cons kv rest ih =>
    obtain ⟨k, v'⟩ := kv
    by_cases hk : k == key
    · simp [insertFile, lookupFile, hk]
    · simp [insertFile, lookupFile, hk, ih]

/-- Removing a key removes it from the store, provided paths are unique (as
they are on a real file system). -/
theorem lookupFile_removeFile_self (files : List (String × Json)) (key : String)
    (hnd : (files.map Prod.fst).Nodup) :
    lookupFile (removeFile files key) key = none := by
  induction files with
  | nil => simp [removeFile, lookupFile]
  | cons kv rest ih =>
    obtain ⟨k, v'⟩ := kv
    simp only [List.map_cons, List.nodup_cons] at hnd
    by_cases hk : k == key
    · have hkey : k = key := beq_iff_eq.mp hk
      subst hkey
      simp only [removeFile, beq_self_eq_true, if_true]
      clear ih
      induction rest with
      | nil => simp [lookupFile]
      | cons kv2 rest2 ih2 =>
        obtain ⟨k2, v2⟩ := kv2
        simp only [List.mem_cons, List.map_cons, List.nodup_cons] at hnd
        have hne : ¬ (k2 == k) := by
          intro hb
          exact hnd.1 (Or.inl (beq_iff_eq.mp hb).symm)
        simp only [lookupFile, hne, Bool.false_eq_true, if_false]
        exact ih2 ⟨fun hm => hnd.1 (Or.inr hm), hnd.2.2⟩
    · simp only [removeFile, hk, Bool.false_eq_true, if_false, lookupFile]
      exact ih hnd.2

/-! ## Concrete fixtures used by witnesses -/

/-- A benign oracle: every external interaction succeeds, every pid is alive,
`pw-dump` returns an empty graph. -/
def env0 : Env :=
  { dumps := fun _ => .parsed [], spawnRes := fun _ => .ok 1
    linkRes := fun _ => .ran ⟨true, ""⟩, procAlive := fun _ => true
    createDirFail := none, writeFail := fun _ => none
    readFail := fun _ => none, removeFail := fun _ => none, now := 0 }

/-- The pristine world: no files, no trace, all counters at zero. -/
def w0 : World :=
  { files := [], dumpIdx := 0, spawnIdx := 0, linkIdx := 0
    linkCalls := [], killCalls := [], spawnCalls := [] }

/-- A concrete split record with two severed links. -/
def rec0 : SplitState :=
  { name := "B", source_node_id := 7, source_node_name := "SRC"
    source_application_name := "App", recording_loopback_name := "App_to_Recording"
    local_loopback_name := "App_to_Local", recording_dest_node_id := 9
    recording_dest_media_name := "rec", recording_dest_application_name := "OBS"
    original_output_node_name := "Speakers"
    original_links := [⟨"SRC:output_FL", "Speakers:input_FL"⟩,
                       ⟨"SRC:output_FR", "Speakers:input_FR"⟩]
    loopback_to_recording_pid := 11, loopback_to_local_pid := 12
    created_at := 99 }

/-! ## Claim C10: deleting an absent record is a no-op -/

/-- C10.  For every split record, `delete(record)` succeeds without error when
the record's state file does not exist on disk: deleting an already-deleted
record is a no-op rather than a `StateFileError`. -/
theorem claim_C10_delete_missing_noop (env : Env) (s : SplitState) (w : World)
    (h : SplitState.existsName w.files s.name = false) :
    SplitState.delete env s w = (.ok (), w) := by
  unfold SplitState.delete
  unfold SplitState.existsName at h
  simp [h]

/-- Witness for C10: the concrete record on an empty store. -/
theorem claim_C10_witness :
    SplitState.existsName w0.files rec0.name = false
    ∧ SplitState.delete env0 rec0 w0 = (.ok (), w0) :=
  ⟨rfl, claim_C10_delete_missing_noop env0 rec0 w0 rfl⟩

/-! ## Claim C8: save/load round trip -/

/-- One saved link survives the JSON round trip. -/
theorem savedLink_roundtrip (l : SavedLink) : SavedLink.fromJson? (SavedLink.toJson l) = some l :=
  rfl

/-- A saved-link list survives the JSON round trip. -/
theorem savedLinks_roundtrip (ls : List SavedLink) :
    savedLinksFromJson? (ls.map SavedLink.toJson) = some ls := by
  induction ls with
  | nil => rfl
  | cons l rest ih => simp [savedLinksFromJson?, savedLink_roundtrip l, ih]

/-- A split record survives the JSON round trip, field for field. -/
theorem splitState_roundtrip (s : SplitState) :
    SplitState.fromJson? (SplitState.toJson s) = some s := by
  have hlinks := savedLinks_roundtrip s.original_links
  simp [SplitState.fromJson?, SplitState.toJson, jLookup, jAsStr, jAsNum, jAsArr, hlinks]

/-- C8.  `save(record)` followed by `load(record.name)` returns a record
equal field-for-field to the original, including the full severed-link list
(provided the underlying directory creation, write and read succeed). -/
theorem claim_C8_save_load_roundtrip (env : Env) (s : SplitState) (w : World)
    (h1 : env.createDirFail = none)
    (h2 : env.writeFail (state_file_path s.name) = none)
    (h3 : env.readFail (state_file_path s.name) = none) :
    SplitState.load env s.name (SplitState.save env s w).2
      = (.ok s, (SplitState.save env s w).2) := by
  unfold SplitState.save
  rw [h1]
  simp only [h2]
  unfold SplitState.load
  simp [lookupFile_insertFile_self, h3, splitState_roundtrip]

/-- Witness for C8: the concrete record with two severed links round-trips. -/
theorem claim_C8_witness :
    SplitState.load env0 rec0.name (SplitState.save env0 rec0 w0).2
      = (.ok rec0, (SplitState.save env0 rec0 w0).2) :=
  claim_C8_save_load_roundtrip env0 rec0 w0 rfl rfl rfl

/-! ## Claim C7: unique split names -/

/-- C7.  `generate_unique_name` resolves collisions by appending an increasing
numeric suffix: the returned name never names an existing record, and when
records named "X" and "X_1" exist but "X_2" does not, it returns "X_2". -/
theorem claim_C7_unique_name :
    (∀ (files : List (String × Json)) (base : String),
       SplitState.existsName files (SplitState.generate_unique_name files base) = false)
    ∧ (∀ files : List (String × Json),
         SplitState.existsName files "X" = true →
         SplitState.existsName files "X_1" = true →
         SplitState.existsName files "X_2" = false →
         SplitState.generate_unique_name files "X" = "X_2") := by
  constructor
  · intro files base
    unfold SplitState.generate_unique_name
    split
    · exact genFrom_fresh files base 1
    · rename_i h
      simpa using h
  · intro files h1 h2 h3
    unfold SplitState.generate_unique_name
    rw [if_pos h1, genFrom, show candAt "X" 1 = "X_1" from rfl, dif_pos h2, genFrom,
      show candAt "X" (1 + 1) = "X_2" from rfl, dif_neg (by simp [h3])]

/-- Fixture for the C7 witness: records "X" and "X_1" exist. -/
def files7 : List (String × Json) :=
  [(state_file_path "X", Json.obj []), (state_file_path "X_1", Json.obj [])]

/-- Witness for C7: on the two-record store, the generated name is "X_2" and
is fresh. -/
theorem claim_C7_witness :
    SplitState.existsName files7 (SplitState.generate_unique_name files7 "X") = false
    ∧ SplitState.generate_unique_name files7 "X" = "X_2" :=
  ⟨claim_C7_unique_name.1 files7 "X",
   claim_C7_unique_name.2 files7 (by rfl) (by rfl) (by rfl)⟩

/-! ## Claim C2: link/unlink idempotence and error surfacing

The claim as frozen is falsified by `destroy_link`: a `pw-link -d` failure
whose stderr is empty matches neither benign pattern, yet the code swallows
it (`!stderr.contains("No such file") && !stderr.is_empty()`), so it is not
surfaced as `LinkDestroyFailed`.
-/

/-- Oracle whose pw-link invocations fail with empty stderr. -/
def envFail : Env := { env0 with linkRes := fun _ => .ran ⟨false, ""⟩ }

/-- Counterexample to C2: the external `pw-link -d` run fails with empty
stderr — not a benign "not connected" text match — yet `destroy_link`
returns success instead of `LinkDestroyFailed`. -/
theorem claim_C2_counterexample :
    envFail.linkRes w0.linkIdx = CmdInvoke.ran { success := false, stderr := "" }
    ∧ strHasSub "" "No such file" = false
    ∧ (destroy_link envFail "SRC:output_FL" "Speakers:input_FL" w0).1 = .ok () :=
  ⟨rfl, rfl, rfl⟩

/-- C2 (amended).  Re-linking an existing pair ("File exists") and unlinking
a nonexistent pair ("No such file") succeed with no effect; every other
external failure surfaces as `LinkCreationFailed` for link and, for unlink,
as `LinkDestroyFailed` — except that unlink also treats a failure with empty
stderr as benign success. -/
theorem claim_C2_link_idempotence_amended (env : Env) (op ip : String) (w : World) :
    (∀ out : CmdOutput, env.linkRes w.linkIdx = .ran out →
       (out.success = true ∨ strHasSub out.stderr "File exists" = true) →
       (create_link env op ip w).1 = .ok ())
    ∧ (∀ out : CmdOutput, env.linkRes w.linkIdx = .ran out →
       out.success = false → strHasSub out.stderr "File exists" = false →
       (create_link env op ip w).1 = .error (.LinkCreationFailed out.stderr))
    ∧ (∀ m, env.linkRes w.linkIdx = .ioErr m →
       (create_link env op ip w).1 = .error (.LinkCreationFailed m))
    ∧ (∀ out : CmdOutput, env.linkRes w.linkIdx = .ran out →
       (out.success = true ∨ strHasSub out.stderr "No such file" = true ∨ out.stderr = "") →
       (destroy_link env op ip w).1 = .ok ())
    ∧ (∀ out : CmdOutput, env.linkRes w.linkIdx = .ran out →
       out.success = false → strHasSub out.stderr "No such file" = false →
       out.stderr ≠ "" →
       (destroy_link env op ip w).1 = .error (.LinkDestroyFailed out.stderr))
    ∧ (∀ m, env.linkRes w.linkIdx = .ioErr m →
       (destroy_link env op ip w).1 = .error (.LinkDestroyFailed m)) := by
  refine ⟨?_, ?_, ?_, ?_, ?_, ?_⟩
  · intro out hran hok
    simp only [create_link, create_link_result, hran]
    rcases hok with h | h
    · simp [h]
    · cases hs : out.success <;> simp [h, hs]
  · intro out hran hs hne
    simp [create_link, create_link_result, hran, hs, hne]
  · intro m hio
    simp [create_link, create_link_result, hio]
  · intro out hran hok
    simp only [destroy_link, destroy_link_result, hran]
    rcases hok with h | h | h
    · simp [h]
    · cases hs : out.success <;> simp [h, hs]
    · cases hs : out.success <;> simp [h, hs]
  · intro out hran hs hne hemp
    have hemp' : (out.stderr == "") = false := by
      simpa using hemp
    simp [destroy_link, destroy_link_result, hran, hs, hne, hemp']
  · intro m hio
    simp [destroy_link, destroy_link_result, hio]

/-- Oracle where pw-link fails because the link already exists. -/
def envExists : Env := { env0 with linkRes := fun _ => .ran ⟨false, "failed to link: File exists"⟩ }

/-- Oracle where pw-link -d fails because there is no such link. -/
def envNoSuch : Env := { env0 with linkRes := fun _ => .ran ⟨false, "No such file or directory"⟩ }

/-- Oracle where pw-link fails for an unrelated reason. -/
def envBad : Env := { env0 with linkRes := fun _ => .ran ⟨false, "connection refused"⟩ }

/-- Witness for C2 (amended): benign failures succeed, genuine failures
surface, on concrete oracles. -/
theorem claim_C2_witness :
    (create_link envExists "SRC:output_FL" "X:input_FL" w0).1 = .ok ()
    ∧ (destroy_link envNoSuch "SRC:output_FL" "X:input_FL" w0).1 = .ok ()
    ∧ (create_link envBad "SRC:output_FL" "X:input_FL" w0).1
        = .error (.LinkCreationFailed "connection refused")
    ∧ (destroy_link envBad "SRC:output_FL" "X:input_FL" w0).1
        = .error (.LinkDestroyFailed "connection refused") :=
  ⟨(claim_C2_link_idempotence_amended envExists "SRC:output_FL" "X:input_FL" w0).1 _ rfl
      (Or.inr (by decide)),
   (claim_C2_link_idempotence_amended envNoSuch "SRC:output_FL" "X:input_FL" w0).2.2.2.1 _ rfl
      (Or.inr (Or.inl (by decide))),
   (claim_C2_link_idempotence_amended envBad "SRC:output_FL" "X:input_FL" w0).2.1 _ rfl
      rfl (by decide),
   (claim_C2_link_idempotence_amended envBad "SRC:output_FL" "X:input_FL" w0).2.2.2.2.1 _ rfl
      rfl (by decide) (by decide)⟩

/-! ## Teardown lemmas -/

/-- Restoring the saved links appends exactly one `pw-link` creation per
saved pair, in order, and touches nothing else in the world. -/
theorem restoreLinks_spec (env : Env) (links : List SavedLink) (w : World) :
    restoreLinks env links w =
      { w with linkIdx := w.linkIdx + links.length
               linkCalls := w.linkCalls
                 ++ links.map (fun l => LinkCall.create l.output_port l.input_port) } := by
  induction links generalizing w with
  | nil => simp [restoreLinks]
  | cons l rest ih =>
    simp only [restoreLinks, create_link]
    rw [ih]
    cases w
    simp only [World.mk.injEq, List.map_cons, List.length_cons, List.append_assoc,
      List.singleton_append, true_and, and_true]
    omega

/-- `delete` reports success or a `StateFileError` naming the delete failure,
and touches no world component except the file store. -/
theorem delete_world_spec (env : Env) (s : SplitState) (w : World) :
    ((SplitState.delete env s w).1 = .ok ()
       ∨ ∃ m, (SplitState.delete env s w).1
           = .error (.StateFileError ("Failed to delete state file: " ++ m)))
    ∧ (SplitState.delete env s w).2.linkCalls = w.linkCalls
    ∧ (SplitState.delete env s w).2.dumpIdx = w.dumpIdx
    ∧ (SplitState.delete env s w).2.killCalls = w.killCalls
    ∧ (SplitState.delete env s w).2.spawnCalls = w.spawnCalls
    ∧ (SplitState.delete env s w).2.linkIdx = w.linkIdx
    ∧ (SplitState.delete env s w).2.spawnIdx = w.spawnIdx := by
  unfold SplitState.delete
  by_cases hex : (lookupFile w.files (state_file_path s.name)).isSome
  · simp only [hex, if_true]
    cases hrm : env.removeFail (state_file_path s.name) with
    | none => simp
    | some m => exact ⟨Or.inr ⟨m, rfl⟩, rfl, rfl, rfl, rfl, rfl, rfl⟩
  · simp [hex]

/-- On a store with unique paths, a successful `delete` leaves no file at the
record's path. -/
theorem delete_ok_removed (env : Env) (s : SplitState) (w : World)
    (hnd : (w.files.map Prod.fst).Nodup)
    (hok : (SplitState.delete env s w).1 = .ok ()) :
    lookupFile (SplitState.delete env s w).2.files (state_file_path s.name) = none := by
  unfold SplitState.delete at hok ⊢
  by_cases hex : (lookupFile w.files (state_file_path s.name)).isSome
  · simp only [hex, if_true] at hok ⊢
    cases hrm : env.removeFail (state_file_path s.name) with
    | none =>
      simp only [hrm]
      exact lookupFile_removeFile_self w.files _ hnd
    | some m => rw [hrm] at hok; simp at hok
  · simp only [hex, Bool.false_eq_true, if_false]
    exact Option.not_isSome_iff_eq_none.mp (by simpa using hex)

/-- The trace left by `teardown_split`: both pids signalled, exactly the
saved link pairs attempted in order, and no `pw-dump` invocation. -/
theorem teardown_world_spec (env : Env) (st : SplitState) (w : World) :
    (teardown_split env st w).2.linkCalls
      = w.linkCalls
        ++ st.original_links.map (fun l => LinkCall.create l.output_port l.input_port)
    ∧ (teardown_split env st w).2.dumpIdx = w.dumpIdx
    ∧ (teardown_split env st w).2.killCalls
      = w.killCalls ++ [st.loopback_to_recording_pid, st.loopback_to_local_pid] := by
  obtain ⟨-, hlc, hdi, hkc, -, -, -⟩ :=
    delete_world_spec env st
      (restoreLinks env st.original_links
        (kill_process st.loopback_to_local_pid (kill_process st.loopback_to_recording_pid w)))
  have ht : teardown_split env st w
      = SplitState.delete env st
          (restoreLinks env st.original_links
            (kill_process st.loopback_to_local_pid
              (kill_process st.loopback_to_recording_pid w))) := rfl
  rw [ht]
  refine ⟨?_, ?_, ?_⟩
  · rw [hlc, restoreLinks_spec]
    simp [kill_process]
  · rw [hdi, restoreLinks_spec]
    simp [kill_process]
  · rw [hkc, restoreLinks_spec]
    simp [kill_process]

/-! ## Claim C4: teardown recreates exactly the saved links -/

/-- C4.  For every split record, teardown attempts to recreate exactly the
link pairs stored in the record's `original_links` field (the port-to-port
strings captured at severing time), in order, and never consults a graph
snapshot (`pw-dump` is not invoked). -/
theorem claim_C4_teardown_recreates_saved_links (env : Env) (st : SplitState) (w : World) :
    (teardown_split env st w).2.linkCalls
      = w.linkCalls
        ++ st.original_links.map (fun l => LinkCall.create l.output_port l.input_port)
    ∧ (teardown_split env st w).2.dumpIdx = w.dumpIdx :=
  ⟨(teardown_world_spec env st w).1, (teardown_world_spec env st w).2.1⟩

/-! ## Claim C5: teardown is tolerant and always deletes the record -/

/-- C5.  For every split record, teardown signals both relay pids and
attempts every saved-link recreation regardless of individual outcomes; the
only failure it can report is a `StateFileError` from deleting the record,
and on success the record's file is gone. -/
theorem claim_C5_teardown_tolerant (env : Env) (st : SplitState) (w : World)
    (hnd : (w.files.map Prod.fst).Nodup) :
    (teardown_split env st w).2.killCalls
        = w.killCalls ++ [st.loopback_to_recording_pid, st.loopback_to_local_pid]
    ∧ (teardown_split env st w).2.linkCalls
        = w.linkCalls
          ++ st.original_links.map (fun l => LinkCall.create l.output_port l.input_port)
    ∧ ((teardown_split env st w).1 = .ok ()
        ∨ ∃ m, (teardown_split env st w).1
            = .error (.StateFileError ("Failed to delete state file: " ++ m)))
    ∧ ((teardown_split env st w).1 = .ok () →
        SplitState.existsName (teardown_split env st w).2.files st.name = false) := by
  have ht : teardown_split env st w
      = SplitState.delete env st
          (restoreLinks env st.original_links
            (kill_process st.loopback_to_local_pid
              (kill_process st.loopback_to_recording_pid w))) := rfl
  obtain ⟨hres, -, -, -, -, -, -⟩ :=
    delete_world_spec env st
      (restoreLinks env st.original_links
        (kill_process st.loopback_to_local_pid (kill_process st.loopback_to_recording_pid w)))
  have hnd' : (((restoreLinks env st.original_links
      (kill_process st.loopback_to_local_pid
        (kill_process st.loopback_to_recording_pid w))).files.map Prod.fst)).Nodup := by
    rw [restoreLinks_spec]
    simpa [kill_process] using hnd
  refine ⟨(teardown_world_spec env st w).2.2, (teardown_world_spec env st w).1, ?_, ?_⟩
  · rw [ht]
    exact hres
  · intro hok
    rw [ht] at hok ⊢
    unfold SplitState.existsName
    rw [delete_ok_removed env st _ hnd' hok]
    rfl

/-- Witness for C5: tearing down the concrete record in the pristine world
succeeds, signals both pids, attempts both saved links, and leaves no file. -/
theorem claim_C5_witness :
    (teardown_split env0 rec0 w0).1 = .ok ()
    ∧ SplitState.existsName (teardown_split env0 rec0 w0).2.files rec0.name = false
    ∧ (teardown_split env0 rec0 w0).2.killCalls
        = w0.killCalls ++ [rec0.loopback_to_recording_pid, rec0.loopback_to_local_pid] := by
  have h := claim_C5_teardown_tolerant env0 rec0 w0 (by decide)
  have hok : (teardown_split env0 rec0 w0).1 = .ok () := rfl
  exact ⟨hok, h.2.2.2 hok, h.1⟩

/-! ## Claim C3: setup with no connections fails early -/

/-- C3.  For every setup invocation whose original-connections list is empty,
setup fails with `NoActiveConnection` and the world is untouched: no relay is
spawned and no record file is written. -/
theorem claim_C3_setup_no_connections (env : Env) (config : SplitConfig) (w : World)
    (h : config.original_connections = []) :
    setup_split env config w = (.error .NoActiveConnection, w)
    ∧ (setup_split env config w).2.spawnCalls = w.spawnCalls
    ∧ (setup_split env config w).2.files = w.files := by
  have h1 : setup_split env config w = (.error .NoActiveConnection, w) := by
    unfold setup_split find_primary_output
    rw [h]
    simp [bindE]
  exact ⟨h1, by rw [h1], by rw [h1]⟩

/-- Fixture source for witnesses. -/
def src0 : AudioSource :=
  { node_id := 10, node_name := "SRC", application_name := "App", media_name := "music" }

/-- Fixture recording destination for witnesses. -/
def dst0 : RecordingDest :=
  { node_id := 30, node_name := "OBS", application_name := "OBS", media_name := "rec" }

/-- Fixture setup configuration with no original connections. -/
def cfg0 : SplitConfig :=
  { source := src0, recording_dest := dst0, original_connections := [] }

/-- Witness for C3: the concrete connectionless setup fails with
`NoActiveConnection` and changes nothing. -/
theorem claim_C3_witness :
    setup_split env0 cfg0 w0 = (.error .NoActiveConnection, w0)
    ∧ (setup_split env0 cfg0 w0).2.spawnCalls = w0.spawnCalls
    ∧ (setup_split env0 cfg0 w0).2.files = w0.files :=
  claim_C3_setup_no_connections env0 cfg0 w0 rfl

/-! ## Grouping lemmas for `find_source_connections` -/

/-- First-match lookup in the grouping association list. -/
def lookupGroup (k : Nat) : List (Nat × List AudioLink) → Option (List AudioLink)
  | [] => none
  | (k', g) :: rest => if k' == k then some g else lookupGroup k rest

/-- `insertGrouped` appends to the key's bucket (opening it if needed) and
leaves every other bucket alone. -/
theorem lookupGroup_insertGrouped (k t : Nat) (x : AudioLink)
    (acc : List (Nat × List AudioLink)) :
    lookupGroup t (insertGrouped k x acc)
      = if t = k then some ((lookupGroup k acc).getD [] ++ [x])
        else lookupGroup t acc := by
  induction acc with
  | nil =>
    by_cases ht : t = k
    · subst ht
      simp [insertGrouped, lookupGroup]
    · have : ¬ (k == t) := fun hb => ht (beq_iff_eq.mp hb).symm
      simp [insertGrouped, lookupGroup, ht, this]
  | cons kv rest ih =>
    obtain ⟨k', g⟩ := kv
    by_cases hk : k' == k
    · have hk' : k' = k := beq_iff_eq.mp hk
      subst hk'
      by_cases ht : t = k'
      · subst ht
        simp [insertGrouped, lookupGroup]
      · have h1 : ¬ (k' == t) := fun hb => ht (beq_iff_eq.mp hb).symm
        simp [insertGrouped, lookupGroup, ht, h1]
    · by_cases ht : k' == t
      · have ht' : k' = t := beq_iff_eq.mp ht
        subst ht'
        have hne : ¬ (k' = k) := fun hb => hk (beq_iff_eq.mpr hb)
        simp [insertGrouped, lookupGroup, hk, hne, ht]
      · simp [insertGrouped, lookupGroup, hk, ht, ih]

/-- The keys of `insertGrouped`: unchanged if the key already has a bucket,
otherwise the key is appended. -/
theorem keys_insertGrouped (k : Nat) (x : AudioLink) (acc : List (Nat × List AudioLink)) :
    (insertGrouped k x acc).map Prod.fst
      = if k ∈ acc.map Prod.fst then acc.map Prod.fst else acc.map Prod.fst ++ [k] := by
  induction acc with
  | nil => simp [insertGrouped]
  | cons kv rest ih =>
    obtain ⟨k', g⟩ := kv
    by_cases hk : k' == k
    · have hk' : k' = k := beq_iff_eq.mp hk
      subst hk'
      simp [insertGrouped]
    · have hne : ¬ (k = k') := fun hb => hk (beq_iff_eq.mpr hb.symm)
      simp only [insertGrouped, hk, Bool.false_eq_true, if_false, List.map_cons, List.mem_cons]
      rw [ih]
      by_cases hm : k ∈ rest.map Prod.fst
      · simp [hm, hne]
      · simp [hm, hne]

/-- `insertGrouped` preserves distinctness of the bucket keys. -/
theorem keys_insertGrouped_nodup (k : Nat) (x : AudioLink)
    (acc : List (Nat × List AudioLink)) (h : (acc.map Prod.fst).Nodup) :
    ((insertGrouped k x acc).map Prod.fst).Nodup := by
  rw [keys_insertGrouped]
  by_cases hm : k ∈ acc.map Prod.fst
  · simpa [hm] using h
  · simp [hm, List.nodup_append, h]

/-- A bucket lookup succeeds exactly for the stored keys. -/
theorem lookupGroup_isSome_iff (t : Nat) (acc : List (Nat × List AudioLink)) :
    (lookupGroup t acc).isSome = true ↔ t ∈ acc.map Prod.fst := by
  induction acc with
  | nil => simp [lookupGroup]
  | cons kv rest ih =>
    obtain ⟨k', g⟩ := kv
    by_cases hk : k' == t
    · have : k' = t := beq_iff_eq.mp hk
      subst this
      simp [lookupGroup]
    · have hne : ¬ (t = k') := fun hb => hk (beq_iff_eq.mpr hb.symm)
      simp [lookupGroup, hk, hne, ih]

/-- With distinct keys, membership in the grouping list coincides with a
successful bucket lookup. -/
theorem mem_iff_lookupGroup (t : Nat) (g : List AudioLink)
    (acc : List (Nat × List AudioLink)) (hnd : (acc.map Prod.fst).Nodup) :
    (t, g) ∈ acc ↔ lookupGroup t acc = some g := by
  induction acc with
  | nil => simp [lookupGroup]
  | cons kv rest ih =>
    obtain ⟨k', g'⟩ := kv
    simp only [List.map_cons, List.nodup_cons] at hnd
    by_cases hk : k' == t
    · have hk' : k' = t := beq_iff_eq.mp hk
      subst hk'
      simp only [lookupGroup, beq_self_eq_true, if_true, List.mem_cons, Prod.mk.injEq,
        true_and, Option.some.injEq]
      constructor
      · rintro (rfl | hmem)
        · rfl
        · exact absurd (List.mem_map_of_mem Prod.fst hmem) hnd.1
      · rintro rfl
        exact Or.inl rfl
    · have hne : ¬ (t = k') := fun hb => hk (beq_iff_eq.mpr hb.symm)
      simp only [lookupGroup, hk, Bool.false_eq_true, if_false, List.mem_cons, Prod.mk.injEq]
      rw [← ih hnd.2]
      constructor
      · rintro (⟨h1, h2⟩ | hmem)
        · exact absurd h1 hne
        · exact hmem
      · exact Or.inr

/-- Folding links into the grouping: the bucket of `t` collects, in order,
exactly the links keyed to `t`. -/
theorem lookupGroup_foldl (key : AudioLink → Nat) (ls : List AudioLink)
    (acc : List (Nat × List AudioLink)) (t : Nat) :
    lookupGroup t (ls.foldl (fun a l => insertGrouped (key l) l a) acc)
      = if (ls.filter (fun l => key l == t)).isEmpty then lookupGroup t acc
        else some ((lookupGroup t acc).getD [] ++ ls.filter (fun l => key l == t)) := by
  induction ls generalizing acc with
  | nil => simp
  | cons l ls ih =>
    simp only [List.foldl_cons]
    rw [ih]
    by_cases hkey : key l == t
    · have hkt : key l = t := beq_iff_eq.mp hkey
      have hfil : (l :: ls).filter (fun l => key l == t)
          = l :: ls.filter (fun l => key l == t) := by
        simp [List.filter_cons, hkey]
      have hacc : lookupGroup t (insertGrouped (key l) l acc)
          = some ((lookupGroup t acc).getD [] ++ [l]) := by
        rw [lookupGroup_insertGrouped, if_pos hkt.symm, hkt]
      rw [hfil, hacc]
      by_cases hemp : (ls.filter (fun l => key l == t)).isEmpty
      · have h0 : ls.filter (fun l => key l == t) = [] := by simpa using hemp
        simp [hemp, h0]
      · simp [hemp, List.append_assoc]
    · have hfil : (l :: ls).filter (fun l => key l == t)
          = ls.filter (fun l => key l == t) := by
        simp [List.filter_cons, hkey]
      have hne : ¬ (t = key l) := fun hb => hkey (beq_iff_eq.mpr hb.symm)
      have hacc : lookupGroup t (insertGrouped (key l) l acc) = lookupGroup t acc := by
        rw [lookupGroup_insertGrouped, if_neg hne]
      rw [hfil, hacc]

/-- The fold keeps the bucket keys distinct. -/
theorem keys_foldl_nodup (key : AudioLink → Nat) (ls : List AudioLink)
    (acc : List (Nat × List AudioLink)) (h : (acc.map Prod.fst).Nodup) :
    ((ls.foldl (fun a l => insertGrouped (key l) l a) acc).map Prod.fst).Nodup := by
  induction ls generalizing acc with
  | nil => simpa using h
  | cons l ls ih =>
    simp only [List.foldl_cons]
    exact ih _ (keys_insertGrouped_nodup (key l) l acc h)

/-! ## Node-name map lemmas -/

/-- `insertName` updates the key and leaves every other lookup alone. -/
theorem lookupName_insertName (k t : Nat) (v : String) (m : List (Nat × String)) :
    lookupName t (insertName k v m) = if t = k then some v else lookupName t m := by
  induction m with
  | nil =>
    by_cases ht : t = k
    · subst ht; simp [insertName, lookupName]
    · have : ¬ (k == t) := fun hb => ht (beq_iff_eq.mp hb).symm
      simp [insertName, lookupName, ht, this]
  | cons kv rest ih =>
    obtain ⟨k', v'⟩ := kv
    by_cases hk : k' == k
    · have hk' : k' = k := beq_iff_eq.mp hk
      subst hk'
      by_cases ht : t = k'
      · subst ht; simp [insertName, lookupName]
      · have h1 : ¬ (k' == t) := fun hb => ht (beq_iff_eq.mp hb).symm
        simp [insertName, lookupName, ht, h1]
    · by_cases ht : k' == t
      · have ht' : k' = t := beq_iff_eq.mp ht
        subst ht'
        have hne : ¬ (k' = k) := fun hb => hk (beq_iff_eq.mpr hb)
        simp [insertName, lookupName, hk, hne, ht]
      · simp [insertName, lookupName, hk, ht, ih]

/-- Is there a node object with the given id in the snapshot? -/
def hasNodeWithId (objects : List PwObject) (t : Nat) : Bool :=
  objects.any fun obj =>
    match obj with
    | .node node => node.id == t
    | _ => false

/-- A resolvable key of a plain insertion fold stems from the inserted items
or from the base map. -/
theorem lookupName_foldl_insert_origin {α : Type} (f : α → Nat) (g : α → String)
    (items : List α) (m0 : List (Nat × String)) (t : Nat)
    (h : (lookupName t (items.foldl (fun m x => insertName (f x) (g x) m) m0)).isSome
          = true) :
    (∃ x ∈ items, f x = t) ∨ (lookupName t m0).isSome = true := by
  induction items generalizing m0 with
  | nil => right; simpa using h
  | cons x items ih =>
    simp only [List.foldl_cons] at h
    rcases ih _ h with ⟨y, hy, hfy⟩ | hbase
    · exact Or.inl ⟨y, List.mem_cons_of_mem _ hy, hfy⟩
    · rw [lookupName_insertName] at hbase
      by_cases ht : t = f x
      · exact Or.inl ⟨x, List.mem_cons_self _ _, ht.symm⟩
      · rw [if_neg ht] at hbase
        exact Or.inr hbase

/-- A resolvable key of the node-name pass stems from a node object or from
the base map. -/
theorem lookupName_nodeNameStep_origin (objects : List PwObject)
    (m0 : List (Nat × String)) (t : Nat)
    (h : (lookupName t (objects.foldl nodeNameStep m0)).isSome = true) :
    hasNodeWithId objects t = true ∨ (lookupName t m0).isSome = true := by
  induction objects generalizing m0 with
  | nil => right; simpa using h
  | cons obj objects ih =>
    simp only [List.foldl_cons] at h
    rcases ih _ h with hnode | hbase
    · left
      simp only [hasNodeWithId, List.any_cons] at hnode ⊢
      simp [hnode]
    · cases obj with
      | node node =>
        cases hinfo : node.info with
        | none =>
          right
          simpa [nodeNameStep, hinfo] using hbase
        | some info =>
          cases hprops : info.props with
          | none =>
            right
            simpa [nodeNameStep, hinfo, hprops] using hbase
          | some props =>
            cases hname : props.node_name with
            | none =>
              right
              simpa [nodeNameStep, hinfo, hprops, hname] using hbase
            | some name =>
              simp only [nodeNameStep, hinfo, hprops, hname] at hbase
              rw [lookupName_insertName] at hbase
              by_cases ht : t = node.id
              · left
                simp [hasNodeWithId, ht]
              · rw [if_neg ht] at hbase
                exact Or.inr hbase
      | port p => right; simpa [nodeNameStep] using hbase
      | link l => right; simpa [nodeNameStep] using hbase
      | other => right; simpa [nodeNameStep] using hbase

/-- Every extracted sink's node id belongs to a node object. -/
theorem extract_audio_sinks_origin (objects : List PwObject) (s : AudioSink)
    (h : s ∈ extract_audio_sinks objects) : hasNodeWithId objects s.node_id = true := by
  obtain ⟨obj, hmem, hsome⟩ := List.mem_filterMap.mp h
  cases obj with
  | node node =>
    cases hinfo : node.info with
    | none => simp [hinfo] at hsome
    | some info =>
      cases hprops : info.props with
      | none => simp [hinfo, hprops] at hsome
      | some props =>
        cases hclass : props.media_class with
        | none => simp [hinfo, hprops, hclass] at hsome
        | some mc =>
          by_cases hmc : mc == "Audio/Sink"
          · simp only [hinfo, hprops, hclass, hmc, if_true, Option.some.injEq] at hsome
            simp only [hasNodeWithId, List.any_eq_true]
            refine ⟨.node node, hmem, ?_⟩
            simp [← hsome]
          · simp [hinfo, hprops, hclass, hmc] at hsome
  | port p => simp at hsome
  | link l => simp at hsome
  | other => simp at hsome

/-- Every extracted recording destination's node id belongs to a node
object. -/
theorem extract_recording_dests_origin (objects : List PwObject) (d : RecordingDest)
    (h : d ∈ extract_recording_dests objects) : hasNodeWithId objects d.node_id = true := by
  obtain ⟨obj, hmem, hsome⟩ := List.mem_filterMap.mp h
  cases obj with
  | node node =>
    cases hinfo : node.info with
    | none => simp [hinfo] at hsome
    | some info =>
      cases hprops : info.props with
      | none => simp [hinfo, hprops] at hsome
      | some props =>
        cases hclass : props.media_class with
        | none => simp [hinfo, hprops, hclass] at hsome
        | some mc =>
          by_cases hmc : mc == "Stream/Input/Audio"
          · simp only [hinfo, hprops, hclass, hmc, if_true, Option.some.injEq] at hsome
            simp only [hasNodeWithId, List.any_eq_true]
            refine ⟨.node node, hmem, ?_⟩
            simp [← hsome]
          · simp [hinfo, hprops, hclass, hmc] at hsome
  | port p => simp at hsome
  | link l => simp at hsome
  | other => simp at hsome

/-- The best-effort node-name map only resolves ids that belong to some node
object of the snapshot. -/
theorem lookupName_buildNodeNames_origin (objects : List PwObject) (t : Nat)
    (h : (lookupName t (buildNodeNames objects)).isSome = true) :
    hasNodeWithId objects t = true := by
  unfold buildNodeNames at h
  rcases lookupName_nodeNameStep_origin objects _ t h with hnode | hbase
  · exact hnode
  · rcases lookupName_foldl_insert_origin _ _ _ _ t hbase with ⟨d, hd, hdt⟩ | hbase2
    · exact hdt ▸ extract_recording_dests_origin objects d hd
    · rcases lookupName_foldl_insert_origin _ _ _ _ t hbase2 with ⟨s, hs, hst⟩ | hbase3
      · exact hst ▸ extract_audio_sinks_origin objects s hs
      · simp [lookupName] at hbase3

/-! ## Claim C6: grouping of a source's connections -/

/-- C6.  For every snapshot and node id `n`, `find_source_connections`
returns one Connection per distinct input node among the links whose output
node is `n`; each Connection carries exactly (and in order) the links from
`n` to its target; the target name comes from the best-effort node-name map
with `Unknown(<id>)` when the id is unresolvable — in particular whenever no
node object with that id exists in the snapshot. -/
theorem claim_C6_connections_of (objects : List PwObject) (n : Nat) :
    ((find_source_connections n objects).map (fun c => c.target_node_id)).Nodup
    ∧ (∀ t, (∃ c ∈ find_source_connections n objects, c.target_node_id = t)
         ↔ ∃ l ∈ (extract_links objects).filter (fun l => l.output_node_id == n),
             l.input_node_id = t)
    ∧ (∀ c ∈ find_source_connections n objects,
         c.source_node_id = n
         ∧ c.links = ((extract_links objects).filter (fun l => l.output_node_id == n)).filter
             (fun l => l.input_node_id == c.target_node_id)
         ∧ c.links ≠ []
         ∧ (∀ nm, lookupName c.target_node_id (buildNodeNames objects) = some nm →
              c.target_node_name = nm)
         ∧ (lookupName c.target_node_id (buildNodeNames objects) = none →
              c.target_node_name = "Unknown(" ++ Nat.repr c.target_node_id ++ ")")
         ∧ (hasNodeWithId objects c.target_node_id = false →
              c.target_node_name = "Unknown(" ++ Nat.repr c.target_node_id ++ ")")) := by
  have hgroups : find_source_connections n objects
      = (groupByKey (fun l => l.input_node_id)
          ((extract_links objects).filter (fun l => l.output_node_id == n))).map
          (fun kv =>
            { source_node_id := n
              target_node_id := kv.1
              target_node_name := (lookupName kv.1 (buildNodeNames objects)).getD
                ("Unknown(" ++ Nat.repr kv.1 ++ ")")
              links := kv.2 }) := rfl
  have hnodup : (((extract_links objects).filter (fun l => l.output_node_id == n)).foldl
      (fun a l => insertGrouped (l.input_node_id) l a) []).map Prod.fst |>.Nodup :=
    keys_foldl_nodup (fun l => l.input_node_id) _ [] (by simp)
  refine ⟨?_, ?_, ?_⟩
  · rw [hgroups, List.map_map]
    exact hnodup
  · intro t
    rw [hgroups]
    constructor
    · rintro ⟨c, hc, rfl⟩
      obtain ⟨kv, hkv, rfl⟩ := List.mem_map.mp hc
      have hk : (lookupGroup kv.1 (groupByKey (fun l => l.input_node_id)
          ((extract_links objects).filter (fun l => l.output_node_id == n)))).isSome
            = true :=
        (lookupGroup_isSome_iff _ _).mpr (List.mem_map_of_mem Prod.fst hkv)
      rw [groupByKey, lookupGroup_foldl] at hk
      by_cases hemp : (((extract_links objects).filter (fun l => l.output_node_id == n)).filter
          (fun l => l.input_node_id == kv.1)).isEmpty
      · rw [if_pos hemp] at hk
        simp [lookupGroup] at hk
      · have hne : ((extract_links objects).filter (fun l => l.output_node_id == n)).filter
            (fun l => l.input_node_id == kv.1) ≠ [] := by
          intro h0
          exact hemp (by simp [h0])
        obtain ⟨l, hl⟩ := List.exists_mem_of_ne_nil _ hne
        obtain ⟨hl1, hl2⟩ := List.mem_filter.mp hl
        exact ⟨l, hl1, beq_iff_eq.mp hl2⟩
    · rintro ⟨l, hl, rfl⟩
      have hfil : l ∈ ((extract_links objects).filter (fun l => l.output_node_id == n)).filter
          (fun l2 => l2.input_node_id == l.input_node_id) :=
        List.mem_filter.mpr ⟨hl, beq_iff_eq.mpr rfl⟩
      have hne : (((extract_links objects).filter (fun l => l.output_node_id == n)).filter
          (fun l2 => l2.input_node_id == l.input_node_id)).isEmpty = false := by
        rcases h0 : ((extract_links objects).filter (fun l => l.output_node_id == n)).filter
            (fun l2 => l2.input_node_id == l.input_node_id) with _ | _
        · rw [h0] at hfil; simp at hfil
        · rw [h0]; rfl
      have hk : (lookupGroup l.input_node_id (groupByKey (fun l => l.input_node_id)
          ((extract_links objects).filter (fun l => l.output_node_id == n)))).isSome
            = true := by
        rw [groupByKey, lookupGroup_foldl, hne]
        simp
      have hmem := (lookupGroup_isSome_iff _ _).mp hk
      obtain ⟨kv, hkv, hfst⟩ := List.mem_map.mp hmem
      refine ⟨_, List.mem_map_of_mem _ hkv, hfst⟩
  · intro c hc
    rw [hgroups] at hc
    obtain ⟨kv, hkv, rfl⟩ := List.mem_map.mp hc
    have hlook : lookupGroup kv.1 (groupByKey (fun l => l.input_node_id)
        ((extract_links objects).filter (fun l => l.output_node_id == n))) = some kv.2 := by
      obtain ⟨k1, g1⟩ := kv
      exact (mem_iff_lookupGroup _ _ _ hnodup).mp hkv
    rw [groupByKey, lookupGroup_foldl] at hlook
    by_cases hemp : (((extract_links objects).filter (fun l => l.output_node_id == n)).filter
        (fun l => l.input_node_id == kv.1)).isEmpty
    · rw [if_pos hemp] at hlook
      simp [lookupGroup] at hlook
    · rw [if_neg hemp] at hlook
      simp only [lookupGroup, Option.getD_none, List.nil_append, Option.some.injEq] at hlook
      have hne2 : kv.2 ≠ [] := by
        intro h0
        rw [h0] at hlook
        exact hemp (by rw [hlook]; rfl)
      refine ⟨rfl, hlook.symm, hne2, ?_, ?_, ?_⟩
      · intro nm hnm
        show (lookupName kv.1 (buildNodeNames objects)).getD
          ("Unknown(" ++ Nat.repr kv.1 ++ ")") = nm
        rw [hnm]
        rfl
      · intro hnone
        show (lookupName kv.1 (buildNodeNames objects)).getD
          ("Unknown(" ++ Nat.repr kv.1 ++ ")") = "Unknown(" ++ Nat.repr kv.1 ++ ")"
        rw [hnone]
        rfl
      · intro hno
        cases hl : lookupName kv.1 (buildNodeNames objects) with
        | none =>
          show Option.getD none ("Unknown(" ++ Nat.repr kv.1 ++ ")")
            = "Unknown(" ++ Nat.repr kv.1 ++ ")"
          rfl
        | some nm =>
          have horig := lookupName_buildNodeNames_origin objects kv.1 (by simp [hl])
          rw [horig] at hno
          simp at hno

/-- Fixture snapshot for the C6 witness: two links out of node 1 (to nodes 2
and 3) and a named node object for target 2. -/
def objs6 : List PwObject :=
  [ .link ⟨100, some ⟨1, 10, 2, 20, none, none⟩⟩
  , .link ⟨101, some ⟨1, 11, 3, 30, none, none⟩⟩
  , .node ⟨2, some ⟨none, some ⟨some "T2", none, none, none, none, none⟩⟩⟩ ]

/-- Witness for C6: on the concrete snapshot, targets are distinct, node 2
appears among them, and every connection is nonempty. -/
theorem claim_C6_witness :
    ((find_source_connections 1 objs6).map (fun c => c.target_node_id)).Nodup
    ∧ (∃ c ∈ find_source_connections 1 objs6, c.target_node_id = 2)
    ∧ ∀ c ∈ find_source_connections 1 objs6, c.links ≠ [] := by
  have h := claim_C6_connections_of objs6 1
  exact ⟨h.1, (h.2.1 2).mpr ⟨⟨100, 1, 10, 2, 20⟩, by decide, rfl⟩,
    fun c hc => (h.2.2 c hc).2.2.1⟩

/-! ## Wiring-loop trace lemmas (for C9 and C1) -/

/-- The pw-link calls one pass of `linkRow` issues for one output port: one
creation per channel-matching input port, in order. -/
def rowCalls (out_name in_name : String) (p : AudioPort) (ins : List AudioPort) :
    List LinkCall :=
  ins.filterMap fun q =>
    if p.channel == q.channel then
      some (.create (get_port_link_name out_name p.port_name)
        (get_port_link_name in_name q.port_name))
    else none

/-- The pw-link calls the full double loop issues. -/
def pairsCalls (out_name in_name : String) (outs ins : List AudioPort) : List LinkCall :=
  (outs.map (fun p => rowCalls out_name in_name p ins)).flatten

/-- Like `rowCalls`, for the by-port-id loop of
`connect_loopback_to_recording_dest`. -/
def rowCallsById (out_name : String) (p : AudioPort) (ins : List AudioPort) :
    List LinkCall :=
  ins.filterMap fun q =>
    if p.channel == q.channel then
      some (.createById (get_port_link_name out_name p.port_name) q.port_id)
    else none

/-- Like `pairsCalls`, for the by-port-id double loop. -/
def pairsCallsById (out_name : String) (outs ins : List AudioPort) : List LinkCall :=
  (outs.map (fun p => rowCallsById out_name p ins)).flatten

/-- Every call of the double loop pairs an output port with a channel-matched
input port. -/
theorem pairsCalls_mem (o i : String) (outs ins : List AudioPort) (c : LinkCall)
    (h : c ∈ pairsCalls o i outs ins) :
    ∃ p ∈ outs, ∃ q ∈ ins, p.channel = q.channel
      ∧ c = .create (get_port_link_name o p.port_name) (get_port_link_name i q.port_name) := by
  obtain ⟨row, hrow, hc⟩ := List.mem_flatten.mp h
  obtain ⟨p, hp, rfl⟩ := List.mem_map.mp hrow
  obtain ⟨q, hq, hsome⟩ := List.mem_filterMap.mp hc
  by_cases hch : p.channel == q.channel
  · rw [if_pos hch] at hsome
    exact ⟨p, hp, q, hq, beq_iff_eq.mp hch, (Option.some.injEq _ _ ▸ hsome).symm⟩
  · rw [if_neg hch] at hsome
    simp at hsome

/-- Every call of the by-id double loop pairs an output port with a
channel-matched input port. -/
theorem pairsCallsById_mem (o : String) (outs ins : List AudioPort) (c : LinkCall)
    (h : c ∈ pairsCallsById o outs ins) :
    ∃ p ∈ outs, ∃ q ∈ ins, p.channel = q.channel
      ∧ c = .createById (get_port_link_name o p.port_name) q.port_id := by
  obtain ⟨row, hrow, hc⟩ := List.mem_flatten.mp h
  obtain ⟨p, hp, rfl⟩ := List.mem_map.mp hrow
  obtain ⟨q, hq, hsome⟩ := List.mem_filterMap.mp hc
  by_cases hch : p.channel == q.channel
  · rw [if_pos hch] at hsome
    exact ⟨p, hp, q, hq, beq_iff_eq.mp hch, (Option.some.injEq _ _ ▸ hsome).symm⟩
  · rw [if_neg hch] at hsome
    simp at hsome

/-- Trace characterization of `linkRow`: the issued calls are a prefix-closed
subset of `rowCalls`, all of `rowCalls` on success, and nothing else in the
world changes except the pw-link counter. -/
theorem linkRow_spec (env : Env) (o i : String) (p : AudioPort) (ins : List AudioPort)
    (w : World) :
    (∃ tr, (linkRow env o i p ins w).2.linkCalls = w.linkCalls ++ tr
       ∧ (∀ c ∈ tr, c ∈ rowCalls o i p ins)
       ∧ ((linkRow env o i p ins w).1 = .ok () → tr = rowCalls o i p ins))
    ∧ (linkRow env o i p ins w).2.files = w.files
    ∧ (linkRow env o i p ins w).2.spawnCalls = w.spawnCalls
    ∧ (linkRow env o i p ins w).2.dumpIdx = w.dumpIdx
    ∧ (linkRow env o i p ins w).2.killCalls = w.killCalls
    ∧ (linkRow env o i p ins w).2.spawnIdx = w.spawnIdx := by
  induction ins generalizing w with
  | nil =>
    exact ⟨⟨[], by simp [linkRow], by simp, by simp [linkRow, rowCalls]⟩, rfl, rfl, rfl, rfl, rfl⟩
  | cons q rest ih =>
    by_cases hch : p.channel == q.channel
    · have hch' : p.channel = q.channel := beq_iff_eq.mp hch
      have hrow : rowCalls o i p (q :: rest)
          = .create (get_port_link_name o p.port_name) (get_port_link_name i q.port_name)
            :: rowCalls o i p rest := by
        simp [rowCalls, List.filterMap_cons, hch']
      rcases hres : create_link_result (env.linkRes w.linkIdx) with e | u
      · -- the creation fails: the loop stops after recording this call
        refine ⟨⟨[.create (get_port_link_name o p.port_name)
            (get_port_link_name i q.port_name)], ?_, ?_, ?_⟩, ?_, ?_, ?_, ?_, ?_⟩
        all_goals
          simp [linkRow, hch, bindE, create_link, hres, hrow]
      · -- the creation succeeds: recurse
        have hstep : linkRow env o i p (q :: rest) w
            = linkRow env o i p rest
                { w with linkIdx := w.linkIdx + 1
                         linkCalls := w.linkCalls
                           ++ [.create (get_port_link_name o p.port_name)
                                (get_port_link_name i q.port_name)] } := by
          simp [linkRow, hch, bindE, create_link, hres]
        obtain ⟨⟨tr, htr, hsub, hok⟩, hf, hsc, hdi, hkc, hsi⟩ := ih
          { w with linkIdx := w.linkIdx + 1
                   linkCalls := w.linkCalls
                     ++ [.create (get_port_link_name o p.port_name)
                          (get_port_link_name i q.port_name)] }
        rw [hstep]
        refine ⟨⟨.create (get_port_link_name o p.port_name)
            (get_port_link_name i q.port_name) :: tr, ?_, ?_, ?_⟩,
          hf, hsc, hdi, hkc, hsi⟩
        · rw [htr]
          simp
        · intro c hc
          rw [hrow]
          rcases List.mem_cons.mp hc with rfl | hc'
          · exact List.mem_cons_self _ _
          · exact List.mem_cons_of_mem _ (hsub c hc')
        · intro hok2
          rw [hrow, hok hok2]
    · have hch' : ¬ p.channel = q.channel := fun he => hch (beq_iff_eq.mpr he)
      have hrow : rowCalls o i p (q :: rest) = rowCalls o i p rest := by
        simp [rowCalls, List.filterMap_cons, hch']
      have hstep : linkRow env o i p (q :: rest) w = linkRow env o i p rest w := by
        simp [linkRow, hch]
      rw [hstep, hrow]
      exact ih w

/-- Trace characterization of the full `linkPairs` double loop. -/
theorem linkPairs_spec (env : Env) (o i : String) (outs ins : List AudioPort) (w : World) :
    (∃ tr, (linkPairs env o i outs ins w).2.linkCalls = w.linkCalls ++ tr
       ∧ (∀ c ∈ tr, c ∈ pairsCalls o i outs ins)
       ∧ ((linkPairs env o i outs ins w).1 = .ok () → tr = pairsCalls o i outs ins))
    ∧ (linkPairs env o i outs ins w).2.files = w.files
    ∧ (linkPairs env o i outs ins w).2.spawnCalls = w.spawnCalls
    ∧ (linkPairs env o i outs ins w).2.dumpIdx = w.dumpIdx
    ∧ (linkPairs env o i outs ins w).2.killCalls = w.killCalls
    ∧ (linkPairs env o i outs ins w).2.spawnIdx = w.spawnIdx := by
  induction outs generalizing w with
  | nil =>
    exact ⟨⟨[], by simp [linkPairs], by simp, by simp [linkPairs, pairsCalls]⟩,
      rfl, rfl, rfl, rfl, rfl⟩
  | cons p outs ih =>
    have hpc : pairsCalls o i (p :: outs) ins
        = rowCalls o i p ins ++ pairsCalls o i outs ins := by
      simp [pairsCalls]
    obtain ⟨⟨tr1, htr1, hsub1, hok1⟩, hf1, hsc1, hdi1, hkc1, hsi1⟩ :=
      linkRow_spec env o i p ins w
    rcases hres : (linkRow env o i p ins w).1 with e | u
    · have hx : linkRow env o i p ins w = (.error e, (linkRow env o i p ins w).2) :=
        Prod.ext hres rfl
      have hstep : linkPairs env o i (p :: outs) ins w
          = (.error e, (linkRow env o i p ins w).2) := by
        show bindE (linkRow env o i p ins w) _ = _
        rw [hx]
        rfl
      rw [hstep]
      refine ⟨⟨tr1, htr1, ?_, ?_⟩, hf1, hsc1, hdi1, hkc1, hsi1⟩
      · intro c hc
        rw [hpc]
        exact List.mem_append_left _ (hsub1 c hc)
      · intro h0
        simp at h0
    · cases u
      have hx : linkRow env o i p ins w = (.ok (), (linkRow env o i p ins w).2) :=
        Prod.ext hres rfl
      have hstep : linkPairs env o i (p :: outs) ins w
          = linkPairs env o i outs ins (linkRow env o i p ins w).2 := by
        show bindE (linkRow env o i p ins w) _ = _
        rw [hx]
        rfl
      obtain ⟨⟨tr2, htr2, hsub2, hok2⟩, hf2, hsc2, hdi2, hkc2, hsi2⟩ :=
        ih (linkRow env o i p ins w).2
      rw [hstep]
      refine ⟨⟨tr1 ++ tr2, ?_, ?_, ?_⟩, by rw [hf2, hf1], by rw [hsc2, hsc1],
        by rw [hdi2, hdi1], by rw [hkc2, hkc1], by rw [hsi2, hsi1]⟩
      · rw [htr2, htr1, List.append_assoc]
      · intro c hc
        rw [hpc]
        rcases List.mem_append.mp hc with hc' | hc'
        · exact List.mem_append_left _ (hsub1 c hc')
        · exact List.mem_append_right _ (hsub2 c hc')
      · intro hok'
        rw [hpc, hok1 hres, hok2 hok']

/-- Trace characterization of `linkRowById`. -/
theorem linkRowById_spec (env : Env) (o : String) (p : AudioPort) (ins : List AudioPort)
    (w : World) :
    (∃ tr, (linkRowById env o p ins w).2.linkCalls = w.linkCalls ++ tr
       ∧ (∀ c ∈ tr, c ∈ rowCallsById o p ins)
       ∧ ((linkRowById env o p ins w).1 = .ok () → tr = rowCallsById o p ins))
    ∧ (linkRowById env o p ins w).2.files = w.files
    ∧ (linkRowById env o p ins w).2.spawnCalls = w.spawnCalls
    ∧ (linkRowById env o p ins w).2.dumpIdx = w.dumpIdx
    ∧ (linkRowById env o p ins w).2.killCalls = w.killCalls
    ∧ (linkRowById env o p ins w).2.spawnIdx = w.spawnIdx := by
  induction ins generalizing w with
  | nil =>
    exact ⟨⟨[], by simp [linkRowById], by simp, by simp [linkRowById, rowCallsById]⟩,
      rfl, rfl, rfl, rfl, rfl⟩
  | cons q rest ih =>
    by_cases hch : p.channel == q.channel
    · have hch' : p.channel = q.channel := beq_iff_eq.mp hch
      have hrow : rowCallsById o p (q :: rest)
          = .createById (get_port_link_name o p.port_name) q.port_id
            :: rowCallsById o p rest := by
        simp [rowCallsById, List.filterMap_cons, hch']
      rcases hres : create_link_by_id_result (get_port_link_name o p.port_name) q.port_id
          (env.linkRes w.linkIdx) with e | u
      · refine ⟨⟨[.createById (get_port_link_name o p.port_name) q.port_id], ?_, ?_, ?_⟩,
          ?_, ?_, ?_, ?_, ?_⟩
        all_goals
          simp [linkRowById, hch, bindE, create_link_by_id, hres, hrow]
      · have hstep : linkRowById env o p (q :: rest) w
            = linkRowById env o p rest
                { w with linkIdx := w.linkIdx + 1
                         linkCalls := w.linkCalls
                           ++ [.createById (get_port_link_name o p.port_name) q.port_id] } := by
          simp [linkRowById, hch, bindE, create_link_by_id, hres]
        obtain ⟨⟨tr, htr, hsub, hok⟩, hf, hsc, hdi, hkc, hsi⟩ := ih
          { w with linkIdx := w.linkIdx + 1
                   linkCalls := w.linkCalls
                     ++ [.createById (get_port_link_name o p.port_name) q.port_id] }
        rw [hstep]
        refine ⟨⟨.createById (get_port_link_name o p.port_name) q.port_id :: tr, ?_, ?_, ?_⟩,
          hf, hsc, hdi, hkc, hsi⟩
        · rw [htr]
          simp
        · intro c hc
          rw [hrow]
          rcases List.mem_cons.mp hc with rfl | hc'
          · exact List.mem_cons_self _ _
          · exact List.mem_cons_of_mem _ (hsub c hc')
        · intro hok2
          rw [hrow, hok hok2]
    · have hch' : ¬ p.channel = q.channel := fun he => hch (beq_iff_eq.mpr he)
      have hrow : rowCallsById o p (q :: rest) = rowCallsById o p rest := by
        simp [rowCallsById, List.filterMap_cons, hch']
      have hstep : linkRowById env o p (q :: rest) w = linkRowById env o p rest w := by
        simp [linkRowById, hch]
      rw [hstep, hrow]
      exact ih w

/-- Trace characterization of the full `linkPairsById` double loop. -/
theorem linkPairsById_spec (env : Env) (o : String) (outs ins : List AudioPort) (w : World) :
    (∃ tr, (linkPairsById env o outs ins w).2.linkCalls = w.linkCalls ++ tr
       ∧ (∀ c ∈ tr, c ∈ pairsCallsById o outs ins)
       ∧ ((linkPairsById env o outs ins w).1 = .ok () → tr = pairsCallsById o outs ins))
    ∧ (linkPairsById env o outs ins w).2.files = w.files
    ∧ (linkPairsById env o outs ins w).2.spawnCalls = w.spawnCalls
    ∧ (linkPairsById env o outs ins w).2.dumpIdx = w.dumpIdx
    ∧ (linkPairsById env o outs ins w).2.killCalls = w.killCalls
    ∧ (linkPairsById env o outs ins w).2.spawnIdx = w.spawnIdx := by
  induction outs generalizing w with
  | nil =>
    exact ⟨⟨[], by simp [linkPairsById], by simp, by simp [linkPairsById, pairsCallsById]⟩,
      rfl, rfl, rfl, rfl, rfl⟩
  | cons p outs ih =>
    have hpc : pairsCallsById o (p :: outs) ins
        = rowCallsById o p ins ++ pairsCallsById o outs ins := by
      simp [pairsCallsById]
    obtain ⟨⟨tr1, htr1, hsub1, hok1⟩, hf1, hsc1, hdi1, hkc1, hsi1⟩ :=
      linkRowById_spec env o p ins w
    rcases hres : (linkRowById env o p ins w).1 with e | u
    · have hx : linkRowById env o p ins w = (.error e, (linkRowById env o p ins w).2) :=
        Prod.ext hres rfl
      have hstep : linkPairsById env o (p :: outs) ins w
          = (.error e, (linkRowById env o p ins w).2) := by
        show bindE (linkRowById env o p ins w) _ = _
        rw [hx]
        rfl
      rw [hstep]
      refine ⟨⟨tr1, htr1, ?_, ?_⟩, hf1, hsc1, hdi1, hkc1, hsi1⟩
      · intro c hc
        rw [hpc]
        exact List.mem_append_left _ (hsub1 c hc)
      · intro h0
        simp at h0
    · cases u
      have hx : linkRowById env o p ins w = (.ok (), (linkRowById env o p ins w).2) :=
        Prod.ext hres rfl
      have hstep : linkPairsById env o (p :: outs) ins w
          = linkPairsById env o outs ins (linkRowById env o p ins w).2 := by
        show bindE (linkRowById env o p ins w) _ = _
        rw [hx]
        rfl
      obtain ⟨⟨tr2, htr2, hsub2, hok2⟩, hf2, hsc2, hdi2, hkc2, hsi2⟩ :=
        ih (linkRowById env o p ins w).2
      rw [hstep]
      refine ⟨⟨tr1 ++ tr2, ?_, ?_, ?_⟩, by rw [hf2, hf1], by rw [hsc2, hsc1],
        by rw [hdi2, hdi1], by rw [hkc2, hkc1], by rw [hsi2, hsi1]⟩
      · rw [htr2, htr1, List.append_assoc]
      · intro c hc
        rw [hpc]
        rcases List.mem_append.mp hc with hc' | hc'
        · exact List.mem_append_left _ (hsub1 c hc')
        · exact List.mem_append_right _ (hsub2 c hc')
      · intro hok'
        rw [hpc, hok1 hres, hok2 hok']

/-- The stereo port set a wiring operation works with: the ports of one node
in one direction whose channel label is FL or FR. -/
def stereoPorts (objs : List PwObject) (nid : Nat) (dir : PortDirection) : List AudioPort :=
  (extract_ports objs).filter fun p =>
    p.node_id == nid && p.direction == dir && (p.channel == "FL" || p.channel == "FR")

/-- A member of a stereo port set carries an FL or FR label. -/
theorem stereoPorts_channel (objs : List PwObject) (nid : Nat) (dir : PortDirection)
    (p : AudioPort) (hp : p ∈ stereoPorts objs nid dir) :
    p.channel = "FL" ∨ p.channel = "FR" := by
  have hpred := (List.mem_filter.mp hp).2
  simp only [Bool.and_eq_true, Bool.or_eq_true, beq_iff_eq] at hpred
  exact hpred.2

/-- Run of `connect_source_to_loopback` when one stereo side is empty: the
exact `LinkCreationFailed` error, after the single snapshot. -/
theorem connect_source_to_loopback_empty (env : Env) (source : AudioSource)
    (lbName : String) (w : World) (objs : List PwObject) (lbid : Nat)
    (hd : env.dumps w.dumpIdx = DumpRes.parsed objs)
    (hfind : find_loopback_capture_node objs lbName = some lbid)
    (hemp : ((stereoPorts objs source.node_id .Output).isEmpty
             || (stereoPorts objs lbid .Input).isEmpty) = true) :
    connect_source_to_loopback env source lbName w
      = (.error (.LinkCreationFailed ("Could not find ports: source="
           ++ Nat.repr (stereoPorts objs source.node_id .Output).length
           ++ ", loopback=" ++ Nat.repr (stereoPorts objs lbid .Input).length)),
         { w with dumpIdx := w.dumpIdx + 1 }) := by
  have hemp' : (((extract_ports objs).filter fun p =>
        p.node_id == source.node_id && p.direction == PortDirection.Output &&
          (p.channel == "FL" || p.channel == "FR")).isEmpty
      || ((extract_ports objs).filter fun p =>
        p.node_id == lbid && p.direction == PortDirection.Input &&
          (p.channel == "FL" || p.channel == "FR")).isEmpty) = true := hemp
  unfold connect_source_to_loopback
  simp only [get_pw_objects, hd, bindE, hfind, hemp', if_true]
  rfl

/-- Run of `connect_source_to_loopback` when both stereo sides are nonempty
and both node names resolve: it reduces to the wiring double loop. -/
theorem connect_source_to_loopback_run (env : Env) (source : AudioSource)
    (lbName : String) (w : World) (objs : List PwObject) (lbid : Nat)
    (srcNm lbNm : String)
    (hd : env.dumps w.dumpIdx = DumpRes.parsed objs)
    (hfind : find_loopback_capture_node objs lbName = some lbid)
    (hsrc : get_node_name objs source.node_id = some srcNm)
    (hlb : get_node_name objs lbid = some lbNm)
    (hne : ((stereoPorts objs source.node_id .Output).isEmpty
            || (stereoPorts objs lbid .Input).isEmpty) = false) :
    connect_source_to_loopback env source lbName w
      = linkPairs env srcNm lbNm (stereoPorts objs source.node_id .Output)
          (stereoPorts objs lbid .Input) { w with dumpIdx := w.dumpIdx + 1 } := by
  have hne' : (((extract_ports objs).filter fun p =>
        p.node_id == source.node_id && p.direction == PortDirection.Output &&
          (p.channel == "FL" || p.channel == "FR")).isEmpty
      || ((extract_ports objs).filter fun p =>
        p.node_id == lbid && p.direction == PortDirection.Input &&
          (p.channel == "FL" || p.channel == "FR")).isEmpty) = false := hne
  unfold connect_source_to_loopback
  simp only [get_pw_objects, hd, bindE, hfind, hne', hsrc, hlb, Bool.false_eq_true, if_false]
  rfl

/-- Run of `connect_loopback_to_recording_dest` when one stereo side is
empty (including the case where the loopback node is not found at all). -/
theorem connect_loopback_to_recording_dest_empty (env : Env) (lbName : String)
    (destId : Nat) (w : World) (objs : List PwObject) (nid : Nat)
    (hd : env.dumps w.dumpIdx = DumpRes.parsed objs)
    (hfind : find_node_by_name objs lbName = some nid)
    (hemp : ((stereoPorts objs nid .Output).isEmpty
             || (stereoPorts objs destId .Input).isEmpty) = true) :
    connect_loopback_to_recording_dest env lbName destId w
      = (.error (.LinkCreationFailed ("Could not find ports for loopback ("
           ++ Nat.repr (stereoPorts objs nid .Output).length
           ++ " ports) or destination node " ++ Nat.repr destId ++ " ("
           ++ Nat.repr (stereoPorts objs destId .Input).length ++ " ports)")),
         { w with dumpIdx := w.dumpIdx + 1 }) := by
  have hemp' : (((extract_ports objs).filter fun p =>
        p.node_id == nid && p.direction == PortDirection.Output &&
          (p.channel == "FL" || p.channel == "FR")).isEmpty
      || ((extract_ports objs).filter fun p =>
        p.node_id == destId && p.direction == PortDirection.Input &&
          (p.channel == "FL" || p.channel == "FR")).isEmpty) = true := hemp
  unfold connect_loopback_to_recording_dest
  simp only [get_pw_objects, hd, bindE, hfind, hemp', if_true]
  rfl

/-- Run of `connect_loopback_to_recording_dest` when both stereo sides are
nonempty: it reduces to the by-id wiring double loop. -/
theorem connect_loopback_to_recording_dest_run (env : Env) (lbName : String)
    (destId : Nat) (w : World) (objs : List PwObject) (nid : Nat)
    (hd : env.dumps w.dumpIdx = DumpRes.parsed objs)
    (hfind : find_node_by_name objs lbName = some nid)
    (hne : ((stereoPorts objs nid .Output).isEmpty
            || (stereoPorts objs destId .Input).isEmpty) = false) :
    connect_loopback_to_recording_dest env lbName destId w
      = linkPairsById env lbName (stereoPorts objs nid .Output)
          (stereoPorts objs destId .Input) { w with dumpIdx := w.dumpIdx + 1 } := by
  have hne' : (((extract_ports objs).filter fun p =>
        p.node_id == nid && p.direction == PortDirection.Output &&
          (p.channel == "FL" || p.channel == "FR")).isEmpty
      || ((extract_ports objs).filter fun p =>
        p.node_id == destId && p.direction == PortDirection.Input &&
          (p.channel == "FL" || p.channel == "FR")).isEmpty) = false := hne
  unfold connect_loopback_to_recording_dest
  simp only [get_pw_objects, hd, bindE, hfind, hne', Bool.false_eq_true, if_false]
  rfl

/-! ## Claim C9: stereo channel matching in the wiring operations -/

/-- C9.  For both wiring operations (source→capture by port names,
playback→destination by port id), links are created only between ports
carrying identical stereo labels ("FL" with "FL", "FR" with "FR"); other or
unmatched ports yield no call; and when either side contributes zero stereo
ports the call fails with `LinkCreationFailed` naming the two port counts. -/
theorem claim_C9_stereo_channel_matching :
    (∀ (env : Env) (source : AudioSource) (lbName : String) (w : World)
       (objs : List PwObject) (lbid : Nat),
      env.dumps w.dumpIdx = DumpRes.parsed objs →
      find_loopback_capture_node objs lbName = some lbid →
      (((stereoPorts objs source.node_id .Output).isEmpty
          || (stereoPorts objs lbid .Input).isEmpty) = true →
        connect_source_to_loopback env source lbName w
          = (.error (.LinkCreationFailed ("Could not find ports: source="
               ++ Nat.repr (stereoPorts objs source.node_id .Output).length
               ++ ", loopback=" ++ Nat.repr (stereoPorts objs lbid .Input).length)),
             { w with dumpIdx := w.dumpIdx + 1 }))
      ∧ (∀ srcNm lbNm,
          get_node_name objs source.node_id = some srcNm →
          get_node_name objs lbid = some lbNm →
          ((stereoPorts objs source.node_id .Output).isEmpty
            || (stereoPorts objs lbid .Input).isEmpty) = false →
          ∃ tr, (connect_source_to_loopback env source lbName w).2.linkCalls
                = w.linkCalls ++ tr
            ∧ (∀ c ∈ tr, ∃ p ∈ stereoPorts objs source.node_id .Output,
                 ∃ q ∈ stereoPorts objs lbid .Input,
                   p.channel = q.channel
                   ∧ (p.channel = "FL" ∨ p.channel = "FR")
                   ∧ c = .create (get_port_link_name srcNm p.port_name)
                       (get_port_link_name lbNm q.port_name))
            ∧ ((connect_source_to_loopback env source lbName w).1 = .ok () →
                tr = pairsCalls srcNm lbNm (stereoPorts objs source.node_id .Output)
                  (stereoPorts objs lbid .Input))))
    ∧ (∀ (env : Env) (lbName : String) (destId : Nat) (w : World)
         (objs : List PwObject) (nid : Nat),
        env.dumps w.dumpIdx = DumpRes.parsed objs →
        find_node_by_name objs lbName = some nid →
        (((stereoPorts objs nid .Output).isEmpty
            || (stereoPorts objs destId .Input).isEmpty) = true →
          connect_loopback_to_recording_dest env lbName destId w
            = (.error (.LinkCreationFailed ("Could not find ports for loopback ("
                 ++ Nat.repr (stereoPorts objs nid .Output).length
                 ++ " ports) or destination node " ++ Nat.repr destId ++ " ("
                 ++ Nat.repr (stereoPorts objs destId .Input).length ++ " ports)")),
               { w with dumpIdx := w.dumpIdx + 1 }))
        ∧ (((stereoPorts objs nid .Output).isEmpty
            || (stereoPorts objs destId .Input).isEmpty) = false →
          ∃ tr, (connect_loopback_to_recording_dest env lbName destId w).2.linkCalls
                = w.linkCalls ++ tr
            ∧ (∀ c ∈ tr, ∃ p ∈ stereoPorts objs nid .Output,
                 ∃ q ∈ stereoPorts objs destId .Input,
                   p.channel = q.channel ∧ (p.channel = "FL" ∨ p.channel = "FR")
                   ∧ c = .createById (get_port_link_name lbName p.port_name) q.port_id)
            ∧ ((connect_loopback_to_recording_dest env lbName destId w).1 = .ok () →
                tr = pairsCallsById lbName (stereoPorts objs nid .Output)
                  (stereoPorts objs destId .Input)))) := by
  constructor
  · intro env source lbName w objs lbid hd hfind
    refine ⟨connect_source_to_loopback_empty env source lbName w objs lbid hd hfind, ?_⟩
    intro srcNm lbNm hsrc hlb hne
    have hrun := connect_source_to_loopback_run env source lbName w objs lbid srcNm lbNm
      hd hfind hsrc hlb hne
    obtain ⟨⟨tr, htr, hsub, hok⟩, -, -, -, -, -⟩ :=
      linkPairs_spec env srcNm lbNm (stereoPorts objs source.node_id .Output)
        (stereoPorts objs lbid .Input) { w with dumpIdx := w.dumpIdx + 1 }
    refine ⟨tr, ?_, ?_, ?_⟩
    · rw [hrun]
      exact htr
    · intro c hc
      obtain ⟨p, hp, q, hq, hch, hcall⟩ := pairsCalls_mem _ _ _ _ c (hsub c hc)
      exact ⟨p, hp, q, hq, hch, stereoPorts_channel _ _ _ p hp, hcall⟩
    · intro hok'
      rw [hrun] at hok'
      exact hok hok'
  · intro env lbName destId w objs nid hd hfind
    refine ⟨connect_loopback_to_recording_dest_empty env lbName destId w objs nid hd hfind,
      ?_⟩
    intro hne
    have hrun := connect_loopback_to_recording_dest_run env lbName destId w objs nid
      hd hfind hne
    obtain ⟨⟨tr, htr, hsub, hok⟩, -, -, -, -, -⟩ :=
      linkPairsById_spec env lbName (stereoPorts objs nid .Output)
        (stereoPorts objs destId .Input) { w with dumpIdx := w.dumpIdx + 1 }
    refine ⟨tr, ?_, ?_, ?_⟩
    · rw [hrun]
      exact htr
    · intro c hc
      obtain ⟨p, hp, q, hq, hch, hcall⟩ := pairsCallsById_mem _ _ _ c (hsub c hc)
      exact ⟨p, hp, q, hq, hch, stereoPorts_channel _ _ _ p hp, hcall⟩
    · intro hok'
      rw [hrun] at hok'
      exact hok hok'

/-- Fixture snapshot for wiring witnesses: source node 10 ("SRC") with stereo
output ports, loopback node 21 ("App_to_Recording") with stereo input ports. -/
def objs9 : List PwObject :=
  [ .node ⟨10, some ⟨none, some ⟨some "SRC", none, none, none, none, none⟩⟩⟩
  , .node ⟨21, some ⟨none,
      some ⟨some "App_to_Recording", some "App -> OBS input", none, none, none, none⟩⟩⟩
  , .port ⟨100, some ⟨some "output", some ⟨some 10, some 0, some "output_FL", some "FL", none⟩⟩⟩
  , .port ⟨101, some ⟨some "output", some ⟨some 10, some 1, some "output_FR", some "FR", none⟩⟩⟩
  , .port ⟨210, some ⟨some "input", some ⟨some 21, some 0, some "playback_FL", some "FL", none⟩⟩⟩
  , .port ⟨211, some ⟨some "input", some ⟨some 21, some 1, some "playback_FR", some "FR", none⟩⟩⟩ ]

/-- Oracle whose snapshots return the wiring fixture. -/
def env9 : Env := { env0 with dumps := fun _ => .parsed objs9 }

/-- Witness for C9: the concrete source→capture wiring issues only
channel-matched stereo calls, and wiring toward a port-less destination node
fails with `LinkCreationFailed` naming the counts. -/
theorem claim_C9_witness :
    (∃ tr, (connect_source_to_loopback env9 src0 "App_to_Recording" w0).2.linkCalls
        = w0.linkCalls ++ tr
      ∧ (∀ c ∈ tr, ∃ p ∈ stereoPorts objs9 src0.node_id .Output,
           ∃ q ∈ stereoPorts objs9 21 .Input,
             p.channel = q.channel ∧ (p.channel = "FL" ∨ p.channel = "FR")
             ∧ c = .create (get_port_link_name "SRC" p.port_name)
                 (get_port_link_name "App_to_Recording" q.port_name))
      ∧ ((connect_source_to_loopback env9 src0 "App_to_Recording" w0).1 = .ok () →
          tr = pairsCalls "SRC" "App_to_Recording" (stereoPorts objs9 src0.node_id .Output)
            (stereoPorts objs9 21 .Input)))
    ∧ connect_loopback_to_recording_dest env9 "App_to_Recording" 99 w0
        = (.error (.LinkCreationFailed ("Could not find ports for loopback ("
             ++ Nat.repr (stereoPorts objs9 21 .Output).length
             ++ " ports) or destination node " ++ Nat.repr 99 ++ " ("
             ++ Nat.repr (stereoPorts objs9 99 .Input).length ++ " ports)")),
           { w0 with dumpIdx := w0.dumpIdx + 1 }) := by
  constructor
  · exact (claim_C9_stereo_channel_matching.1 env9 src0 "App_to_Recording" w0 objs9 21
      rfl (by decide)).2 "SRC" "App_to_Recording" (by decide) (by decide) (by decide)
  · exact (claim_C9_stereo_channel_matching.2 env9 "App_to_Recording" 99 w0 objs9 21
      rfl (by decide)).1 (by decide)

/-! ## Health-check lemmas (for C1) -/

/-- Whatever `connect_loopback_to_recording_dest` does, every pw-link call it
adds is a by-id creation whose output side addresses the named loopback, and
the file store, spawn trace and kill trace are untouched. -/
theorem connect_loopback_to_recording_dest_world (env : Env) (lb : String) (destId : Nat)
    (w : World) :
    ∃ tr, (connect_loopback_to_recording_dest env lb destId w).2.linkCalls
        = w.linkCalls ++ tr
      ∧ (∀ c ∈ tr, ∃ pn qid, c = LinkCall.createById (get_port_link_name lb pn) qid)
      ∧ (connect_loopback_to_recording_dest env lb destId w).2.files = w.files
      ∧ (connect_loopback_to_recording_dest env lb destId w).2.spawnCalls = w.spawnCalls := by
  rcases hd : env.dumps w.dumpIdx with m | s | m | objs
  · exact ⟨[], by simp [connect_loopback_to_recording_dest, get_pw_objects, hd, bindE]⟩
  · exact ⟨[], by simp [connect_loopback_to_recording_dest, get_pw_objects, hd, bindE]⟩
  · exact ⟨[], by simp [connect_loopback_to_recording_dest, get_pw_objects, hd, bindE]⟩
  · rcases hf : find_node_by_name objs lb with _ | nid
    · exact ⟨[], by simp [connect_loopback_to_recording_dest, get_pw_objects, hd, bindE, hf]⟩
    · by_cases hemp : ((stereoPorts objs nid .Output).isEmpty
          || (stereoPorts objs destId .Input).isEmpty) = true
      · rw [connect_loopback_to_recording_dest_empty env lb destId w objs nid hd hf hemp]
        exact ⟨[], by simp⟩
      · have hne : ((stereoPorts objs nid .Output).isEmpty
            || (stereoPorts objs destId .Input).isEmpty) = false := by
          simpa using hemp
        rw [connect_loopback_to_recording_dest_run env lb destId w objs nid hd hf hne]
        obtain ⟨⟨tr, htr, hsub, -⟩, hfl, hsc, -, -, -⟩ :=
          linkPairsById_spec env lb (stereoPorts objs nid .Output)
            (stereoPorts objs destId .Input) { w with dumpIdx := w.dumpIdx + 1 }
        refine ⟨tr, htr, ?_, hfl, hsc⟩
        intro c hc
        obtain ⟨p, -, q, -, -, hcall⟩ := pairsCallsById_mem _ _ _ c (hsub c hc)
        exact ⟨p.port_name, q.port_id, hcall⟩

/-- Inversion of a successful `restart_loopback_to_recording`: the stored pid
is overwritten with the freshly spawned one, the spawn is traced, the updated
record is re-persisted at the record's path, and every pw-link call issued is
a by-id creation from the recording loopback (playback→destination wiring). -/
theorem restart_loopback_to_recording_ok (env : Env) (st : SplitState) (w : World)
    (pid : Nat) (st1 : SplitState) (w1 : World)
    (h : restart_loopback_to_recording env st w = (.ok pid, st1, w1)) :
    st1 = { st with loopback_to_recording_pid := pid }
    ∧ env.spawnRes w.spawnIdx = .ok pid
    ∧ w1.spawnCalls = w.spawnCalls ++ [(st.recording_loopback_name, pid)]
    ∧ lookupFile w1.files (state_file_path st.name) = some (SplitState.toJson st1)
    ∧ ∃ tr, w1.linkCalls = w.linkCalls ++ tr
        ∧ ∀ c ∈ tr, ∃ pn qid,
            c = LinkCall.createById (get_port_link_name st.recording_loopback_name pn) qid := by
  unfold restart_loopback_to_recording at h
  rcases hs : env.spawnRes w.spawnIdx with m | p
  · simp [spawn_loopback_no_target, hs] at h
  · simp only [spawn_loopback_no_target, hs] at h
    rcases hc : connect_loopback_to_recording_dest env st.recording_loopback_name
        st.recording_dest_node_id
        { w with spawnIdx := w.spawnIdx + 1
                 spawnCalls := w.spawnCalls ++ [(st.recording_loopback_name, p)] }
      with ⟨cres, wB⟩
    rw [hc] at h
    obtain ⟨trC, htrC, hsubC, hflC, hscC⟩ :=
      connect_loopback_to_recording_dest_world env st.recording_loopback_name
        st.recording_dest_node_id
        { w with spawnIdx := w.spawnIdx + 1
                 spawnCalls := w.spawnCalls ++ [(st.recording_loopback_name, p)] }
    rw [hc] at htrC hflC hscC
    cases cres with
    | error e => simp at h
    | ok u =>
      rcases hcd : env.createDirFail with _ | m
      · rcases hw : env.writeFail (state_file_path st.name) with _ | m
        · simp only [SplitState.save, hcd, hw, Prod.mk.injEq, Except.ok.injEq] at h
          obtain ⟨hpid, hst, hw1⟩ := h
          subst hpid
          subst hst
          subst hw1
          refine ⟨?_, ?_, ?_, ?_, trC, ?_, ?_⟩
          · exact rfl
          · exact rfl
          · exact hscC
          · exact lookupFile_insertFile_self _ _ _
          · exact htrC
          · exact hsubC
        · simp [SplitState.save, hcd, hw] at h
      · simp [SplitState.save, hcd] at h

/-! ## Claim C1: the periodic health check on a dead recording relay -/

/-- Snapshot for the health-check scenario: source node 10 ("SRC") with
stereo output ports, recording loopback node 22 ("App_to_Recording") with
stereo output (playback) ports, and destination node 30 ("OBS") with stereo
input ports. -/
def objsC : List PwObject :=
  [ .node ⟨10, some ⟨none, some ⟨some "SRC", none, none, none, none, none⟩⟩⟩
  , .node ⟨22, some ⟨none,
      some ⟨some "App_to_Recording", some "App -> OBS output", none, none, none, none⟩⟩⟩
  , .node ⟨30, some ⟨none, some ⟨some "OBS", none, none, none, none, none⟩⟩⟩
  , .port ⟨100, some ⟨some "output", some ⟨some 10, some 0, some "output_FL", some "FL", none⟩⟩⟩
  , .port ⟨101, some ⟨some "output", some ⟨some 10, some 1, some "output_FR", some "FR", none⟩⟩⟩
  , .port ⟨220, some ⟨some "output", some ⟨some 22, some 0, some "output_FL", some "FL", none⟩⟩⟩
  , .port ⟨221, some ⟨some "output", some ⟨some 22, some 1, some "output_FR", some "FR", none⟩⟩⟩
  , .port ⟨300, some ⟨some "input", some ⟨some 30, some 0, some "input_FL", some "FL", none⟩⟩⟩
  , .port ⟨301, some ⟨some "input", some ⟨some 30, some 1, some "input_FR", some "FR", none⟩⟩⟩ ]

/-- A split record whose recording relay (pid 11) will be found dead. -/
def stC : SplitState :=
  { name := "C", source_node_id := 10, source_node_name := "SRC"
    source_application_name := "App", recording_loopback_name := "App_to_Recording"
    local_loopback_name := "App_to_Local", recording_dest_node_id := 30
    recording_dest_media_name := "rec", recording_dest_application_name := "OBS"
    original_output_node_name := "Speakers", original_links := []
    loopback_to_recording_pid := 11, loopback_to_local_pid := 12
    created_at := 99 }

/-- Oracle for the health-check scenario: pid 11 is dead, every other pid is
alive, spawns yield pid 77, and every snapshot returns `objsC`. -/
def envC : Env :=
  { env0 with dumps := fun _ => .parsed objsC
              procAlive := fun p => !(p == 11)
              spawnRes := fun _ => .ok 77 }

/-- The TUI state holding the record `stC`. -/
def appC : App := { active_split := some stC, status_message := "" }

/-- The record as updated by the successful restart. -/
def st1C : SplitState := (restart_loopback_to_recording envC stC w0).2.1

/-- The world after the successful restart. -/
def w1C : World := (restart_loopback_to_recording envC stC w0).2.2

/-- C1. The spec claims the health check re-establishes BOTH the recording
relay's capture←source wiring and its playback→destination wiring.  In this
concrete run the recording relay's pid is dead, the health check respawns it
(new pid 77), reports success, and issues link calls — yet although the
source node's stereo output ports are present in the snapshot, no issued
link-creation call addresses a port of the source node: the capture←source
wiring is never re-established. -/
theorem claim_C1_counterexample :
    check_loopbacks_running envC stC = (false, true)
    ∧ (check_and_restart_loopbacks envC appC w0).1.status_message
        = "Recording loopback restarted"
    ∧ ((check_and_restart_loopbacks envC appC w0).1.active_split.map
        SplitState.loopback_to_recording_pid) = some 77
    ∧ (check_and_restart_loopbacks envC appC w0).2.linkCalls ≠ []
    ∧ stereoPorts objsC stC.source_node_id .Output ≠ []
    ∧ capture_wiring_attempted (check_and_restart_loopbacks envC appC w0).2.linkCalls
        stC.source_node_name = false :=
  ⟨rfl, rfl, rfl, by decide, by decide, rfl⟩

/-- C1 (amended): for every record whose recording-relay pid is not running
(and whose local-relay pid is running), when the restart succeeds the health
check overwrites the stored pid with the freshly spawned one, records the
spawn, re-persists the updated record at the record's path, reports
"Recording loopback restarted" — and every pw-link call it issues is a by-id
creation whose output side is a port of the recording loopback, i.e. only
the playback→destination wiring is re-established, never capture←source. -/
theorem claim_C1_health_check_amended (env : Env) (app : App) (st : SplitState)
    (w : World) (pid : Nat) (st1 : SplitState) (w1 : World)
    (happ : app.active_split = some st)
    (hdead : env.procAlive st.loopback_to_recording_pid = false)
    (halive : env.procAlive st.loopback_to_local_pid = true)
    (hrestart : restart_loopback_to_recording env st w = (.ok pid, st1, w1)) :
    check_and_restart_loopbacks env app w
      = ({ active_split := some st1
           status_message := "Recording loopback restarted" }, w1)
    ∧ st1 = { st with loopback_to_recording_pid := pid }
    ∧ w1.spawnCalls = w.spawnCalls ++ [(st.recording_loopback_name, pid)]
    ∧ lookupFile w1.files (state_file_path st.name) = some (SplitState.toJson st1)
    ∧ ∃ tr, w1.linkCalls = w.linkCalls ++ tr
        ∧ ∀ c ∈ tr, ∃ pn qid,
            c = LinkCall.createById (get_port_link_name st.recording_loopback_name pn) qid := by
  obtain ⟨h1, -, h3, h4, h5⟩ :=
    restart_loopback_to_recording_ok env st w pid st1 w1 hrestart
  refine ⟨?_, h1, h3, h4, h5⟩
  unfold check_and_restart_loopbacks
  rw [happ]
  simp [check_loopbacks_running, is_process_running, hdead, halive, hrestart]

/-- Witness for C1: the amended health-check theorem applied to the concrete
dead-recording-relay scenario with spawned pid 77. -/
theorem claim_C1_witness :
    check_and_restart_loopbacks envC appC w0
      = ({ active_split := some st1C
           status_message := "Recording loopback restarted" }, w1C)
    ∧ st1C = { stC with loopback_to_recording_pid := 77 }
    ∧ w1C.spawnCalls = w0.spawnCalls ++ [(stC.recording_loopback_name, 77)]
    ∧ lookupFile w1C.files (state_file_path stC.name) = some (SplitState.toJson st1C)
    ∧ ∃ tr, w1C.linkCalls = w0.linkCalls ++ tr
        ∧ ∀ c ∈ tr, ∃ pn qid,
            c = LinkCall.createById (get_port_link_name stC.recording_loopback_name pn) qid :=
  claim_C1_health_check_amended envC appC stC w0 77 st1C w1C rfl rfl rfl rfl
